import Mathlib

/-!
Shallow embedding of the Doris backend TabletManager
(be/src/olap/tablet_manager.cpp) together with the parts of the
alpha rowset writer it drives.  External collaborators (filesystem,
TabletMetaManager, DataDir registration) are modelled as components of an
explicit manager state; their operations are modelled as succeeding.
-/

/-- OLAP status codes used by the tablet manager paths under study. -/
inductive OLAPStatus where
  | OLAP_SUCCESS
  | ERR_ENGINE_INSERT_EXISTS_TABLE
  | ERR_CE_TABLET_ID_EXIST
  | ERR_CE_CMD_PARAMS_ERROR
  | ERR_TABLE_NOT_FOUND
  | ERR_PREVIOUS_SCHEMA_CHANGE_NOT_FINISHED
  | ERR_HEADER_PB_PARSE_FAILED
  | ERR_TABLE_ALREADY_DELETED_ERROR
  | ERR_TABLE_INDEX_VALIDATE_ERROR
  | ERR_TABLE_CREATE_FROM_HEADER_ERROR
  | ERR_INPUT_PARAMETER_ERROR
  deriving DecidableEq, Repr

export OLAPStatus (OLAP_SUCCESS ERR_ENGINE_INSERT_EXISTS_TABLE ERR_CE_TABLET_ID_EXIST
  ERR_CE_CMD_PARAMS_ERROR ERR_TABLE_NOT_FOUND ERR_PREVIOUS_SCHEMA_CHANGE_NOT_FINISHED
  ERR_HEADER_PB_PARSE_FAILED ERR_TABLE_ALREADY_DELETED_ERROR ERR_TABLE_INDEX_VALIDATE_ERROR
  ERR_TABLE_CREATE_FROM_HEADER_ERROR ERR_INPUT_PARAMETER_ERROR)

/-- Tablet lifecycle state (tablet_meta->tablet_state()). -/
inductive TabletState where
  | TABLET_NORMAL
  | TABLET_SHUTDOWN
  deriving DecidableEq, Repr

/-- State of an alter (schema change / rollup) task. -/
inductive AlterState where
  | ALTER_RUNNING
  | ALTER_FINISHED
  | ALTER_FAILED
  deriving DecidableEq, Repr

/-- Rowset visibility state (RowsetStatePB). -/
inductive RowsetStatePB where
  | VISIBLE
  | PREPARING
  | COMMITTED
  deriving DecidableEq, Repr

/-- Rowset storage format (RowsetTypePB). -/
inductive RowsetTypePB where
  | ALPHA_ROWSET
  deriving DecidableEq, Repr

/-- Alter task attached to a tablet: peer identity plus state. -/
structure AlterTask where
  related_tablet_id : Int
  related_schema_hash : Int
  alter_state : AlterState
  deriving DecidableEq, Repr

/-- A rowset as observed by the tablet manager: a version range
(version_first, version_second), a version hash, a creation time, its
state/type and its row count.  version_second is the end_version. -/
structure Rowset where
  rowset_id : Int
  version_first : Int
  version_second : Int
  version_hash : Int
  creation_time : Int
  rowset_state : RowsetStatePB
  rowset_type : RowsetTypePB
  num_rows : Nat
  deriving DecidableEq, Repr

/-- A tablet instance.  Attributes the manager observes; DataDirs are
identified by a numeric id.  init_succeeded, can_do_compaction, is_used
and the two compaction scores abstract Tablet methods whose code is
outside this repository sample. -/
structure Tablet where
  tablet_id : Int
  schema_hash : Int
  creation_time : Int
  tablet_path : String
  data_dir : Nat
  tablet_state : TabletState
  alter_task : Option AlterTask
  rowsets : List Rowset
  cumulative_layer_point : Int
  next_rowset_id : Int
  partition_id : Int
  init_succeeded : Bool
  can_do_compaction : Bool
  is_used : Bool
  base_compaction_score : Nat
  cumulative_compaction_score : Nat
  deriving DecidableEq, Repr

/-- Tablet::equal(tablet_id, schema_hash). -/
def Tablet.equal (t : Tablet) (tablet_id schema_hash : Int) : Bool :=
  t.tablet_id == tablet_id && t.schema_hash == schema_hash

/-- Modelled from the spec: Tablet::rowset_with_max_version (latest rowset
by end_version); the Tablet class is not part of this repository sample.
Ties keep the earlier rowset. -/
def rowsetWithMaxVersion : List Rowset → Option Rowset
  | [] => none
  | r :: rest =>
    some (rest.foldl (fun acc x => if x.version_second > acc.version_second then x else acc) r)

/-- Modelled from the spec: first component of Tablet::max_version(),
-1 when the tablet has no rowset. -/
def Tablet.maxVersionFirst (t : Tablet) : Int :=
  match rowsetWithMaxVersion t.rowsets with
  | none => -1
  | some r => r.version_first

/-- A bucket of the registry map: the instances sharing one tablet_id
(the embedded schema-change lock carries no data relevant here). -/
structure TableInstances where
  table_arr : List Tablet
  deriving DecidableEq, Repr

/-- TabletInfo { tablet_id, schema_hash } used by the error-path batch drop. -/
structure TabletInfo where
  tablet_id : Int
  schema_hash : Int
  deriving DecidableEq, Repr

/-- TCreateTabletReq.tablet_schema (only the schema hash is observed here). -/
structure TTabletSchema where
  schema_hash : Int
  deriving DecidableEq, Repr

/-- The create-tablet request. -/
structure TCreateTabletReq where
  tablet_id : Int
  tablet_schema : TTabletSchema
  version : Int
  version_hash : Int
  deriving DecidableEq, Repr

/-- The manager state: the registry map (association list keyed by
tablet_id), the shutdown queue, the durable meta store (keyed by
(data_dir, tablet_id, schema_hash)) and the per-DataDir registration
set. -/
structure TabletManager where
  tablet_map : List (Int × TableInstances)
  shutdown_tablets : List Tablet
  meta_store : List ((Nat × Int × Int) × Tablet)
  dir_registered : List (Nat × Int × Int)
  deriving DecidableEq, Repr

/-- The empty manager. -/
def TabletManager.empty : TabletManager :=
  { tablet_map := [], shutdown_tablets := [], meta_store := [], dir_registered := [] }

/-- Association-list lookup of a bucket. -/
def mapFind (l : List (Int × TableInstances)) (tablet_id : Int) : Option TableInstances :=
  (l.find? (fun p => p.1 == tablet_id)).map (fun p => p.2)

/-- Whether a key is present in the registry map. -/
def containsKey (l : List (Int × TableInstances)) (tablet_id : Int) : Bool :=
  (l.find? (fun p => p.1 == tablet_id)).isSome

/-- std::map operator[] read semantics: materialize an empty bucket when
the key is absent. -/
def ensureKey (l : List (Int × TableInstances)) (tablet_id : Int) :
    List (Int × TableInstances) :=
  if containsKey l tablet_id then l else l ++ [(tablet_id, ⟨[]⟩)]

/-- The instance list of a bucket ([] when the key is absent). -/
def mapGetArr (l : List (Int × TableInstances)) (tablet_id : Int) : List Tablet :=
  match mapFind l tablet_id with
  | some ins => ins.table_arr
  | none => []

/-- Replace the instance list stored under an existing key. -/
def mapSetArr (l : List (Int × TableInstances)) (tablet_id : Int) (arr : List Tablet) :
    List (Int × TableInstances) :=
  l.map (fun p => if p.1 == tablet_id then (p.1, ⟨arr⟩) else p)

/-- std::map operator[] write semantics: set the list, inserting the key
when absent. -/
def mapUpsertArr (l : List (Int × TableInstances)) (tablet_id : Int) (arr : List Tablet) :
    List (Int × TableInstances) :=
  if containsKey l tablet_id then mapSetArr l tablet_id arr else l ++ [(tablet_id, ⟨arr⟩)]

/-- Erase a key from the registry map. -/
def mapEraseKey (l : List (Int × TableInstances)) (tablet_id : Int) :
    List (Int × TableInstances) :=
  l.filter (fun p => p.1 != tablet_id)

/-- TabletMetaManager::save keyed by the tablet's own
(data_dir, tablet_id, schema_hash); overwrites an existing entry. -/
def metaSave (store : List ((Nat × Int × Int) × Tablet)) (t : Tablet) :
    List ((Nat × Int × Int) × Tablet) :=
  ((t.data_dir, t.tablet_id, t.schema_hash), t) ::
    store.filter (fun e => e.1 != (t.data_dir, t.tablet_id, t.schema_hash))

/-- TabletMetaManager::get_header. -/
def metaFind (store : List ((Nat × Int × Int) × Tablet)) (dir : Nat) (tablet_id schema_hash : Int) :
    Option Tablet :=
  (store.find? (fun e => e.1 == (dir, tablet_id, schema_hash))).map (fun e => e.2)

/-- TabletMetaManager::remove. -/
def metaRemove (store : List ((Nat × Int × Int) × Tablet)) (dir : Nat)
    (tablet_id schema_hash : Int) : List ((Nat × Int × Int) × Tablet) :=
  store.filter (fun e => e.1 != (dir, tablet_id, schema_hash))

/-- Tablet::register_tablet_into_dir (keeps the set free of duplicates). -/
def dirRegister (s : List (Nat × Int × Int)) (t : Tablet) : List (Nat × Int × Int) :=
  if s.contains (t.data_dir, t.tablet_id, t.schema_hash) then s
  else s ++ [(t.data_dir, t.tablet_id, t.schema_hash)]

/-- Tablet::deregister_tablet_from_dir. -/
def dirDeregister (s : List (Nat × Int × Int)) (t : Tablet) : List (Nat × Int × Int) :=
  s.filter (fun e => e != (t.data_dir, t.tablet_id, t.schema_hash))

/-- The comparator _sort_tablet_by_creation_time; buckets are kept sorted
ascending by creation time with a stable sort. -/
def sortByCreationTime (l : List Tablet) : List Tablet :=
  List.insertionSort (fun a b => a.creation_time ≤ b.creation_time) l

/-- TabletManager::_get_tablet_with_no_lock. -/
def TabletManager._get_tablet_with_no_lock (m : TabletManager)
    (tablet_id schema_hash : Int) : Option Tablet :=
  match mapFind m.tablet_map tablet_id with
  | none => none
  | some ins => ins.table_arr.find? (fun t => t.equal tablet_id schema_hash)

/-- TabletManager::_check_tablet_id_exist_unlock. -/
def TabletManager._check_tablet_id_exist_unlock (m : TabletManager) (tablet_id : Int) : Bool :=
  match mapFind m.tablet_map tablet_id with
  | some ins => !ins.table_arr.isEmpty
  | none => false

/-- The registry-map effect shared by _drop_tablet_directly_unlocked and
drop_tablets_on_error_root_path: remove every instance matching
(tablet_id, schema_hash) from its bucket; erase the bucket when it
becomes empty. -/
def removeFromBucket (l : List (Int × TableInstances)) (tablet_id schema_hash : Int) :
    List (Int × TableInstances) :=
  let kept := (mapGetArr l tablet_id).filter (fun t => !t.equal tablet_id schema_hash)
  let map1 := mapSetArr l tablet_id kept
  if kept.isEmpty then mapEraseKey map1 tablet_id else map1

/-- The shutdown transition applied to each instance removed by a
non-keep-files drop: set TABLET_SHUTDOWN, save its meta, enqueue it.
Models the loop body of _drop_tablet_directly_unlocked. -/
def shutdownRemoved (removed : List Tablet)
    (store : List ((Nat × Int × Int) × Tablet)) :
    List Tablet × List ((Nat × Int × Int) × Tablet) :=
  removed.foldl
    (fun acc t =>
      let t' := { t with tablet_state := TabletState.TABLET_SHUTDOWN }
      (acc.1 ++ [t'], metaSave acc.2 t'))
    ([], store)

/-- TabletManager::_drop_tablet_directly_unlocked. -/
def TabletManager._drop_tablet_directly_unlocked (m : TabletManager)
    (tablet_id schema_hash : Int) (keep_files : Bool) : OLAPStatus × TabletManager :=
  match m._get_tablet_with_no_lock tablet_id schema_hash with
  | none => (ERR_TABLE_NOT_FOUND, m)
  | some dropped_tablet =>
    let arr := mapGetArr m.tablet_map tablet_id
    let removed := arr.filter (fun t => t.equal tablet_id schema_hash)
    let shut := if keep_files then ([], m.meta_store) else shutdownRemoved removed m.meta_store
    (OLAP_SUCCESS,
      { m with
        tablet_map := removeFromBucket m.tablet_map tablet_id schema_hash,
        shutdown_tablets := m.shutdown_tablets ++ shut.1,
        meta_store := shut.2,
        dir_registered := dirDeregister m.dir_registered dropped_tablet })

/-- Replace, inside the bucket of the given tablet_id, every instance
matching (tablet_id, schema_hash) by the given tablet.  Models an
in-place mutation of a shared tablet object held by the registry. -/
def updateTabletInMap (l : List (Int × TableInstances)) (tablet_id schema_hash : Int)
    (t' : Tablet) : List (Int × TableInstances) :=
  l.map (fun p =>
    if p.1 == tablet_id then
      (p.1, ⟨p.2.table_arr.map (fun t => if t.equal tablet_id schema_hash then t' else t)⟩)
    else p)

/-- TabletManager::_drop_tablet_unlock. -/
def TabletManager._drop_tablet_unlock (m : TabletManager)
    (tablet_id schema_hash : Int) (keep_files : Bool) : OLAPStatus × TabletManager :=
  match m._get_tablet_with_no_lock tablet_id schema_hash with
  | none => (OLAP_SUCCESS, m)
  | some dropped_tablet =>
    match dropped_tablet.alter_task with
    | none => m._drop_tablet_directly_unlocked tablet_id schema_hash keep_files
    | some alter_task =>
      let is_schema_change_finished := alter_task.alter_state == AlterState.ALTER_FINISHED
      match m._get_tablet_with_no_lock alter_task.related_tablet_id
          alter_task.related_schema_hash with
      | none => m._drop_tablet_directly_unlocked tablet_id schema_hash keep_files
      | some related_tablet =>
        let is_drop_base_tablet := dropped_tablet.creation_time < related_tablet.creation_time
        if is_drop_base_tablet && !is_schema_change_finished then
          (ERR_PREVIOUS_SCHEMA_CHANGE_NOT_FINISHED, m)
        else
          let related' := { related_tablet with alter_task := none }
          let m1 := { m with
            tablet_map := updateTabletInMap m.tablet_map alter_task.related_tablet_id
              alter_task.related_schema_hash related' }
          let m2 := { m1 with meta_store := metaSave m1.meta_store related' }
          m2._drop_tablet_directly_unlocked tablet_id schema_hash keep_files

/-- TabletManager::_add_tablet_to_map.  Meta save and DataDir
registration are modelled as succeeding. -/
def TabletManager._add_tablet_to_map (m : TabletManager) (tablet_id schema_hash : Int)
    (tablet : Tablet) (update_meta keep_files drop_old : Bool) : OLAPStatus × TabletManager :=
  let m1 := if update_meta then { m with meta_store := metaSave m.meta_store tablet } else m
  let step2 := if drop_old then m1._drop_tablet_unlock tablet_id schema_hash keep_files
               else (OLAP_SUCCESS, m1)
  if step2.1 ≠ OLAP_SUCCESS then step2
  else
    let m2 := step2.2
    let m3 := { m2 with dir_registered := dirRegister m2.dir_registered tablet }
    let arr := mapGetArr m3.tablet_map tablet_id ++ [tablet]
    (OLAP_SUCCESS,
      { m3 with tablet_map := mapUpsertArr m3.tablet_map tablet_id (sortByCreationTime arr) })

/-- TabletManager::_add_tablet_unlock. -/
def TabletManager._add_tablet_unlock (m : TabletManager) (tablet_id schema_hash : Int)
    (tablet : Tablet) (update_meta force : Bool) : OLAPStatus × TabletManager :=
  let m0 := { m with tablet_map := ensureKey m.tablet_map tablet_id }
  let arr := mapGetArr m0.tablet_map tablet_id
  match arr.find? (fun t => t.equal tablet_id schema_hash) with
  | none => m0._add_tablet_to_map tablet_id schema_hash tablet update_meta false false
  | some table_item =>
    if !force && table_item.tablet_path == tablet.tablet_path then
      (ERR_ENGINE_INSERT_EXISTS_TABLE, m0)
    else if !force && table_item.data_dir == tablet.data_dir then
      (ERR_ENGINE_INSERT_EXISTS_TABLE, m0)
    else
      let old_rowset := rowsetWithMaxVersion table_item.rowsets
      match rowsetWithMaxVersion tablet.rowsets with
      | none => (ERR_ENGINE_INSERT_EXISTS_TABLE, m0)
      | some new_rowset =>
        let old_time : Int := match old_rowset with | none => -1 | some r => r.creation_time
        let new_time : Int := new_rowset.creation_time
        let old_version : Int := match old_rowset with | none => -1 | some r => r.version_second
        let new_version : Int := new_rowset.version_second
        let keep_files := force
        if force || (new_version > old_version
            || (new_version == old_version && new_time > old_time)) then
          m0._add_tablet_to_map tablet_id schema_hash tablet update_meta keep_files true
        else
          (ERR_ENGINE_INSERT_EXISTS_TABLE, m0)

/-- TabletManager::_create_inital_rowset (source spelling kept).  Builds
the initial empty alpha rowset through the writer context, adds it to the
tablet, sets the cumulative layer point and saves the meta.  The writer
is the AlphaRowsetWriter: with rowset_state VISIBLE it stamps the
context's version and version_hash on the rowset meta; flush without
add_row yields an empty rowset.  now is the wall-clock creation time the
rowset meta records. -/
def TabletManager._create_inital_rowset (m : TabletManager) (tablet : Tablet)
    (request : TCreateTabletReq) (now : Int) : OLAPStatus × Tablet × TabletManager :=
  if request.version < 1 then
    (ERR_CE_CMD_PARAMS_ERROR, tablet, m)
  else
    if (0 : Int) > request.version then
      (ERR_INPUT_PARAMETER_ERROR, tablet, m)
    else
      let new_rowset : Rowset :=
        { rowset_id := tablet.next_rowset_id,
          version_first := 0,
          version_second := request.version,
          version_hash := request.version_hash,
          creation_time := now,
          rowset_state := RowsetStatePB.VISIBLE,
          rowset_type := RowsetTypePB.ALPHA_ROWSET,
          num_rows := 0 }
      let tablet1 := { tablet with
        rowsets := tablet.rowsets ++ [new_rowset],
        next_rowset_id := tablet.next_rowset_id + 1,
        cumulative_layer_point := request.version + 1 }
      (OLAP_SUCCESS, tablet1, { m with meta_store := metaSave m.meta_store tablet1 })

/-- TabletManager::_internal_create_tablet.  The filesystem work of
_create_tablet_meta_and_dir is abstracted: built is the tablet it
produced (none when every DataDir failed).  tablet->init() is modelled
as succeeding. -/
def TabletManager._internal_create_tablet (m : TabletManager) (request : TCreateTabletReq)
    (is_schema_change_tablet : Bool) (ref_tablet : Option Tablet) (built : Option Tablet)
    (now : Int) : Option Tablet × TabletManager :=
  match m._get_tablet_with_no_lock request.tablet_id request.tablet_schema.schema_hash with
  | some _ => (none, m)
  | none =>
    match built with
    | none => (none, m)
    | some tablet0 =>
      let step : OLAPStatus × Tablet × TabletManager :=
        if !is_schema_change_tablet then
          m._create_inital_rowset tablet0 request now
        else
          match ref_tablet with
          | none => (OLAP_SUCCESS, tablet0, m)
          | some ref =>
            if tablet0.creation_time ≤ ref.creation_time then
              (OLAP_SUCCESS, { tablet0 with creation_time := ref.creation_time + 1 }, m)
            else
              (OLAP_SUCCESS, tablet0, m)
      let tablet1 := step.2.1
      let m1 := step.2.2
      if step.1 ≠ OLAP_SUCCESS then
        let store1 := metaRemove m1.meta_store tablet1.data_dir request.tablet_id
          request.tablet_schema.schema_hash
        (none, { m1 with meta_store := store1 })
      else
        let added := m1._add_tablet_unlock request.tablet_id request.tablet_schema.schema_hash
          tablet1 true false
        if added.1 ≠ OLAP_SUCCESS then
          let store2 := metaRemove added.2.meta_store tablet1.data_dir request.tablet_id
            request.tablet_schema.schema_hash
          (none, { added.2 with meta_store := store2 })
        else
          match added.2._get_tablet_with_no_lock request.tablet_id
              request.tablet_schema.schema_hash with
          | none =>
            (none, (added.2._drop_tablet_unlock request.tablet_id
              request.tablet_schema.schema_hash false).2)
          | some _ => (some tablet1, added.2)

/-- TabletManager::create_tablet (the status-returning entry point). -/
def TabletManager.create_tablet (m : TabletManager) (request : TCreateTabletReq)
    (built : Option Tablet) (now : Int) : OLAPStatus × TabletManager :=
  if m._check_tablet_id_exist_unlock request.tablet_id then
    match m._get_tablet_with_no_lock request.tablet_id request.tablet_schema.schema_hash with
    | some _ => (OLAP_SUCCESS, m)
    | none => (ERR_CE_TABLET_ID_EXIST, m)
  else
    match m._internal_create_tablet request false none built now with
    | (none, m') => (ERR_CE_CMD_PARAMS_ERROR, m')
    | (some _, m') => (OLAP_SUCCESS, m')

/-- TabletManager::drop_tablet (lock acquisition elided). -/
def TabletManager.drop_tablet (m : TabletManager) (tablet_id schema_hash : Int)
    (keep_files : Bool) : OLAPStatus × TabletManager :=
  m._drop_tablet_unlock tablet_id schema_hash keep_files

/-- TabletManager::load_tablet_from_meta.  meta_binary is the
deserialization result (none when parsing fails);
Tablet::create_tablet_from_meta and tablet->init() are modelled as
succeeding, attaching the given data_dir. -/
def TabletManager.load_tablet_from_meta (m : TabletManager) (data_dir : Nat)
    (tablet_id schema_hash : Int) (meta_binary : Option Tablet)
    (update_meta force : Bool) : OLAPStatus × TabletManager :=
  match meta_binary with
  | none => (ERR_HEADER_PB_PARSE_FAILED, m)
  | some meta =>
    let tablet := { meta with data_dir := data_dir }
    if tablet.tablet_state == TabletState.TABLET_SHUTDOWN then
      (ERR_TABLE_ALREADY_DELETED_ERROR,
        { m with shutdown_tablets := m.shutdown_tablets ++ [tablet] })
    else if tablet.maxVersionFirst == -1 && tablet.alter_task.isNone then
      (ERR_TABLE_INDEX_VALIDATE_ERROR, m)
    else
      m._add_tablet_unlock tablet_id schema_hash tablet update_meta force

/-- One iteration of drop_tablets_on_error_root_path: remove every
instance matching the given (tablet_id, schema_hash) from its bucket and
erase the bucket when it becomes empty. -/
def dropOnErrorStep (m : TabletManager) (info : TabletInfo) : TabletManager :=
  match m._get_tablet_with_no_lock info.tablet_id info.schema_hash with
  | none => m
  | some _ =>
    { m with tablet_map := removeFromBucket m.tablet_map info.tablet_id info.schema_hash }

/-- TabletManager::drop_tablets_on_error_root_path. -/
def TabletManager.drop_tablets_on_error_root_path (m : TabletManager)
    (tablet_info_vec : List TabletInfo) : OLAPStatus × TabletManager :=
  (OLAP_SUCCESS, tablet_info_vec.foldl dropOnErrorStep m)

/-- TabletManager::get_tablet with the include_deleted flag. -/
def TabletManager.get_tablet (m : TabletManager) (tablet_id schema_hash : Int)
    (include_deleted : Bool) : Option Tablet :=
  let t0 := m._get_tablet_with_no_lock tablet_id schema_hash
  let t1 := if t0.isNone && include_deleted then
      m.shutdown_tablets.find?
        (fun d => d.tablet_id == tablet_id && d.schema_hash == schema_hash)
    else t0
  match t1 with
  | some t => if !t.is_used then none else some t
  | none => none

/-- Compaction kind. -/
inductive CompactionType where
  | BASE_COMPACTION
  | CUMULATIVE_COMPACTION
  deriving DecidableEq, Repr

/-- The score computed per kind (calc_base_compaction_score /
calc_cumulative_compaction_score; the calculations themselves are outside
this repository sample and are abstract tablet attributes). -/
def tabletScore (compaction_type : CompactionType) (t : Tablet) : Nat :=
  match compaction_type with
  | CompactionType.BASE_COMPACTION => t.base_compaction_score
  | CompactionType.CUMULATIVE_COMPACTION => t.cumulative_compaction_score

/-- The skip test of find_best_tablet_to_compaction: a derived tablet of
an active schema change (alter state neither FINISHED nor FAILED, related
tablet registered, own creation time newer), or an uninitialized tablet,
or one that cannot compact. -/
def skipForCompaction (m : TabletManager) (t : Tablet) : Bool :=
  (match t.alter_task with
   | some cur_alter_task =>
     if cur_alter_task.alter_state != AlterState.ALTER_FINISHED
         && cur_alter_task.alter_state != AlterState.ALTER_FAILED then
       match m._get_tablet_with_no_lock cur_alter_task.related_tablet_id
           cur_alter_task.related_schema_hash with
       | some related_tablet => t.creation_time > related_tablet.creation_time
       | none => false
     else false
   | none => false)
  || !t.init_succeeded || !t.can_do_compaction

/-- Every instance of the registry in visit order (map order, then bucket
order). -/
def TabletManager.allTablets (m : TabletManager) : List Tablet :=
  (m.tablet_map.map (fun p => p.2.table_arr)).flatten

/-- The loop body of find_best_tablet_to_compaction: the accumulator is
(highest_score, best_tablet). -/
def compactionStep (m : TabletManager) (compaction_type : CompactionType)
    (acc : Nat × Option Tablet) (t : Tablet) : Nat × Option Tablet :=
  if skipForCompaction m t then acc
  else
    let table_score := tabletScore compaction_type t
    if table_score > acc.1 then (table_score, some t) else acc

/-- TabletManager::find_best_tablet_to_compaction. -/
def TabletManager.find_best_tablet_to_compaction (m : TabletManager)
    (compaction_type : CompactionType) : Option Tablet :=
  (m.allTablets.foldl (compactionStep m compaction_type) (0, none)).2

/-- An externally driven registry operation, with the results of its
external collaborators (built tablet, parsed meta, clock) as data. -/
inductive Op where
  | create (request : TCreateTabletReq) (built : Option Tablet) (now : Int)
  | drop (tablet_id schema_hash : Int) (keep_files : Bool)
  | load (data_dir : Nat) (tablet_id schema_hash : Int) (meta_binary : Option Tablet)
      (update_meta force : Bool)
  deriving Repr

/-- Apply one operation, keeping only the resulting state. -/
def applyOp (m : TabletManager) : Op → TabletManager
  | Op.create request built now => (m.create_tablet request built now).2
  | Op.drop tablet_id schema_hash keep_files =>
    (m.drop_tablet tablet_id schema_hash keep_files).2
  | Op.load data_dir tablet_id schema_hash meta_binary update_meta force =>
    (m.load_tablet_from_meta data_dir tablet_id schema_hash meta_binary update_meta force).2

/-- Apply a sequence of operations starting from a state. -/
def applyOps (m : TabletManager) (ops : List Op) : TabletManager :=
  ops.foldl applyOp m

/-- The registry-map shape invariant: every bucket present in the map is
non-empty. -/
def BucketsNonempty (m : TabletManager) : Prop :=
  ∀ p ∈ m.tablet_map, p.2.table_arr ≠ []

/-- Number of registered instances matching (tablet_id, schema_hash). -/
def countMatching (m : TabletManager) (tablet_id schema_hash : Int) : Nat :=
  ((mapGetArr m.tablet_map tablet_id).filter (fun t => t.equal tablet_id schema_hash)).length

/-- The instances find_best_tablet_to_compaction actually scores, in
visit order. -/
def compactionCandidates (m : TabletManager) : List Tablet :=
  m.allTablets.filter (fun t => !skipForCompaction m t)

/-- The highest score among the scored instances (0 when none). -/
def maxCandidateScore (m : TabletManager) (compaction_type : CompactionType) : Nat :=
  (compactionCandidates m).foldl (fun a t => max a (tabletScore compaction_type t)) 0

/-- The post-state description of a successful initial-rowset build:
exactly one empty VISIBLE alpha rowset covering (0, request.version)
with the request's version hash is appended, the cumulative layer point
becomes request.version + 1 and the tablet's meta is saved. -/
def InitalRowsetOk (m : TabletManager) (tablet : Tablet) (request : TCreateTabletReq)
    (now : Int) : Prop :=
  (m._create_inital_rowset tablet request now).1 = OLAP_SUCCESS ∧
  (m._create_inital_rowset tablet request now).2.1.rowsets =
    tablet.rowsets ++
      [{ rowset_id := tablet.next_rowset_id,
         version_first := 0,
         version_second := request.version,
         version_hash := request.version_hash,
         creation_time := now,
         rowset_state := RowsetStatePB.VISIBLE,
         rowset_type := RowsetTypePB.ALPHA_ROWSET,
         num_rows := 0 }] ∧
  (m._create_inital_rowset tablet request now).2.1.cumulative_layer_point =
    request.version + 1 ∧
  (m._create_inital_rowset tablet request now).2.2 =
    { m with meta_store := metaSave m.meta_store (m._create_inital_rowset tablet request now).2.1 }

/-- A plain NORMAL tablet used to build concrete example states. -/
def sampleTablet : Tablet :=
  { tablet_id := 100, schema_hash := 7, creation_time := 10,
    tablet_path := "d1", data_dir := 1, tablet_state := TabletState.TABLET_NORMAL,
    alter_task := none, rowsets := [], cumulative_layer_point := 0, next_rowset_id := 0,
    partition_id := 5, init_succeeded := true, can_do_compaction := true, is_used := true,
    base_compaction_score := 0, cumulative_compaction_score := 0 }

/-- An empty visible rowset with end version 1. -/
def sampleRowset : Rowset :=
  { rowset_id := 0, version_first := 0, version_second := 1, version_hash := 1,
    creation_time := 5, rowset_state := RowsetStatePB.VISIBLE,
    rowset_type := RowsetTypePB.ALPHA_ROWSET, num_rows := 0 }

/-- A registry holding just sampleTablet under key 100. -/
def singletonManager : TabletManager :=
  { TabletManager.empty with tablet_map := [(100, ⟨[sampleTablet]⟩)] }

/-- A create request matching sampleTablet's identity. -/
def sampleRequest : TCreateTabletReq :=
  { tablet_id := 100, tablet_schema := ⟨7⟩, version := 2, version_hash := 99 }

/-- Existing instance for the C2 scenario: the base tablet of an
unfinished schema change toward (1, 20), holding a rowset with end
version 1. -/
def oldBaseTablet : Tablet :=
  { sampleTablet with
    tablet_id := 1, schema_hash := 10, tablet_path := "pOld", data_dir := 1,
    rowsets := [sampleRowset],
    alter_task := some ⟨1, 20, AlterState.ALTER_RUNNING⟩, creation_time := 10 }

/-- The registered related (derived) tablet of oldBaseTablet, newer. -/
def relatedTablet : Tablet :=
  { sampleTablet with
    tablet_id := 1, schema_hash := 20, tablet_path := "pRel", data_dir := 2,
    rowsets := [sampleRowset], creation_time := 20 }

/-- An incoming replacement for (1, 10) on a different path and DataDir
with a strictly larger max end version. -/
def incomingTablet : Tablet :=
  { sampleTablet with
    tablet_id := 1, schema_hash := 10, tablet_path := "pNew", data_dir := 3,
    rowsets := [{ sampleRowset with version_second := 5, creation_time := 6 }],
    creation_time := 30 }

/-- Registry holding oldBaseTablet and relatedTablet under key 1. -/
def alterPairManager : TabletManager :=
  { TabletManager.empty with tablet_map := [(1, ⟨[oldBaseTablet, relatedTablet]⟩)] }

/-- A create request for the schema-change creation scenario. -/
def scRequest : TCreateTabletReq :=
  { tablet_id := 2, tablet_schema := ⟨30⟩, version := 2, version_hash := 0 }

/-- The freshly built schema-change tablet, older than its reference. -/
def scBuiltTablet : Tablet :=
  { sampleTablet with
    tablet_id := 2, schema_hash := 30, creation_time := 5, tablet_path := "d2" }

/-- A persisted meta in the TABLET_SHUTDOWN state. -/
def shutdownMeta : Tablet :=
  { sampleTablet with tablet_state := TabletState.TABLET_SHUTDOWN }

/-- The existing tablet of the C2 replacement scenario without any alter
task, so the replacement path is unobstructed. -/
def plainOldTablet : Tablet :=
  { oldBaseTablet with alter_task := none }

/-- Registry holding only plainOldTablet under key 1. -/
def plainOldManager : TabletManager :=
  { TabletManager.empty with tablet_map := [(1, ⟨[plainOldTablet]⟩)] }

/-- Absence of the one obstruction to dropping an existing instance: the
instance is not the base (older side) of an unfinished schema change
whose related tablet is registered. -/
def OldDropOk (m : TabletManager) (old : Tablet) : Prop :=
  ∀ task, old.alter_task = some task →
    task.alter_state ≠ AlterState.ALTER_FINISHED →
      ∀ rel, m._get_tablet_with_no_lock task.related_tablet_id task.related_schema_hash
          = some rel →
        ¬(old.creation_time < rel.creation_time)

/-- The derived (newer) side of a schema change, carrying the alter task
back to (1, 10). -/
def derivedAlterTablet : Tablet :=
  { relatedTablet with alter_task := some ⟨1, 10, AlterState.ALTER_RUNNING⟩ }

/-- Registry pairing plainOldTablet (1, 10) with derivedAlterTablet
(1, 20). -/
def derivedPairManager : TabletManager :=
  { TabletManager.empty with tablet_map := [(1, ⟨[plainOldTablet, derivedAlterTablet]⟩)] }

/-- The old_version read by _add_tablet_unlock: the existing instance's
max rowset end version, -1 when it has no rowset. -/
def maxRowsetEndVersion (t : Tablet) : Int :=
  match rowsetWithMaxVersion t.rowsets with
  | none => -1
  | some r => r.version_second

/-- The old_time read by _add_tablet_unlock: the existing instance's max
rowset creation time, -1 when it has no rowset. -/
def maxRowsetCreationTime (t : Tablet) : Int :=
  match rowsetWithMaxVersion t.rowsets with
  | none => -1
  | some r => r.creation_time

theorem find_eq_head_filter {α : Type} (p : α → Bool) (l : List α) :
    l.find? p = (l.filter p).head? := by
  induction l with
  | nil => rfl
  | cons a l ih =>
    by_cases h : p a
    · rw [List.find?_cons_of_pos _ h, List.filter_cons_of_pos h, List.head?_cons]
    · rw [List.find?_cons_of_neg _ (by simpa using h), List.filter_cons_of_neg (by simpa using h), ih]

theorem find_filter_of_imp {α : Type} (p q : α → Bool) (l : List α)
    (h : ∀ a, p a = true → q a = true) :
    (l.filter q).find? p = l.find? p := by
  induction l with
  | nil => rfl
  | cons a l ih =>
    by_cases hp : p a
    · have hq := h a hp
      simp [List.filter_cons, hq, List.find?_cons, hp]
    · simp only [Bool.not_eq_true] at hp
      by_cases hq : q a
      · simp [List.filter_cons, hq, List.find?_cons, hp, ih]
      · simp only [Bool.not_eq_true] at hq
        simp [List.filter_cons, hq, List.find?_cons, hp, ih]

theorem find_none_filter {α : Type} (p q : α → Bool) (l : List α)
    (h : l.find? p = none) : (l.filter q).find? p = none := by
  rw [List.find?_eq_none] at h ⊢
  intro x hx
  exact h x (List.mem_of_mem_filter hx)

theorem mapFind_cons (a : Int × TableInstances) (l : List (Int × TableInstances)) (id' : Int) :
    mapFind (a :: l) id' = if a.1 == id' then some a.2 else mapFind l id' := by
  unfold mapFind
  by_cases h : (a.1 == id') <;> simp [List.find?_cons, h]

theorem containsKey_cons (a : Int × TableInstances) (l : List (Int × TableInstances)) (id' : Int) :
    containsKey (a :: l) id' = (a.1 == id' || containsKey l id') := by
  unfold containsKey
  by_cases h : (a.1 == id') <;> simp [List.find?_cons, h]

theorem mapSetArr_cons (a : Int × TableInstances) (l : List (Int × TableInstances))
    (tablet_id : Int) (arr : List Tablet) :
    mapSetArr (a :: l) tablet_id arr =
      (if a.1 == tablet_id then (a.1, ⟨arr⟩) else a) :: mapSetArr l tablet_id arr := by
  simp only [mapSetArr, List.map_cons]

theorem mapEraseKey_cons (a : Int × TableInstances) (l : List (Int × TableInstances))
    (tablet_id : Int) :
    mapEraseKey (a :: l) tablet_id =
      if a.1 == tablet_id then mapEraseKey l tablet_id else a :: mapEraseKey l tablet_id := by
  simp only [mapEraseKey, List.filter_cons, bne]
  by_cases h : (a.1 == tablet_id) <;> simp [h]

theorem containsKey_false_forall {l : List (Int × TableInstances)} {tablet_id : Int}
    (h : containsKey l tablet_id = false) : ∀ p ∈ l, p.1 ≠ tablet_id := by
  intro p hp
  unfold containsKey at h
  have h2 : l.find? (fun p => p.1 == tablet_id) = none := by
    cases hf : l.find? (fun p => p.1 == tablet_id) with
    | none => rfl
    | some v => rw [hf] at h; simp at h
  have := List.find?_eq_none.mp h2 p hp
  simpa using this

theorem mapFind_mapSetArr_self {l : List (Int × TableInstances)} {tablet_id : Int}
    {arr : List Tablet} (h : containsKey l tablet_id = true) :
    mapFind (mapSetArr l tablet_id arr) tablet_id = some ⟨arr⟩ := by
  induction l with
  | nil => simp [containsKey] at h
  | cons a l ih =>
    rw [mapSetArr_cons]
    by_cases ha : (a.1 == tablet_id)
    · rw [if_pos ha, mapFind_cons]
      simp [ha]
    · have ha' : (a.1 == tablet_id) = false := by simpa using ha
      rw [containsKey_cons, ha'] at h
      simp only [Bool.false_or] at h
      rw [if_neg (by simp [ha']), mapFind_cons, if_neg (by simp [ha'])]
      exact ih h

theorem mapFind_mapSetArr_ne {l : List (Int × TableInstances)} {tablet_id id' : Int}
    {arr : List Tablet} (h : id' ≠ tablet_id) :
    mapFind (mapSetArr l tablet_id arr) id' = mapFind l id' := by
  induction l with
  | nil => rfl
  | cons a l ih =>
    rw [mapSetArr_cons, mapFind_cons (a := a)]
    by_cases ha : (a.1 == tablet_id)
    · have haeq : a.1 = tablet_id := by simpa using ha
      have hne : (a.1 == id') = false := by
        simp [haeq]
        exact fun hc => h hc.symm
      rw [if_pos ha, mapFind_cons]
      simp only [hne, Bool.false_eq_true, if_false]
      rw [ih]
    · rw [if_neg (by simp [ha]), mapFind_cons]
      by_cases hb : (a.1 == id')
      · simp [hb]
      · simp only [hb, Bool.false_eq_true, if_false]
        rw [ih]

theorem mapFind_mapEraseKey_self {l : List (Int × TableInstances)} {tablet_id : Int} :
    mapFind (mapEraseKey l tablet_id) tablet_id = none := by
  induction l with
  | nil => rfl
  | cons a l ih =>
    rw [mapEraseKey_cons]
    by_cases ha : (a.1 == tablet_id)
    · rw [if_pos ha]; exact ih
    · have ha' : (a.1 == tablet_id) = false := by simpa using ha
      rw [if_neg (by simp [ha']), mapFind_cons]
      simp only [ha', Bool.false_eq_true, if_false]
      exact ih

theorem mapFind_mapEraseKey_ne {l : List (Int × TableInstances)} {tablet_id id' : Int}
    (h : id' ≠ tablet_id) :
    mapFind (mapEraseKey l tablet_id) id' = mapFind l id' := by
  induction l with
  | nil => rfl
  | cons a l ih =>
    rw [mapEraseKey_cons, mapFind_cons (a := a)]
    by_cases ha : (a.1 == tablet_id)
    · have haeq : a.1 = tablet_id := by simpa using ha
      have hne : (a.1 == id') = false := by
        simp [haeq]
        exact fun hc => h hc.symm
      rw [if_pos ha]
      simp only [hne, Bool.false_eq_true, if_false]
      exact ih
    · rw [if_neg (by simp [ha]), mapFind_cons]
      by_cases hb : (a.1 == id')
      · simp [hb]
      · simp only [hb, Bool.false_eq_true, if_false]
        exact ih

theorem mapFind_append_absent {l : List (Int × TableInstances)} {tablet_id : Int}
    (x : Int × TableInstances)
    (h : containsKey l tablet_id = false) :
    mapFind (l ++ [x]) tablet_id = if x.1 == tablet_id then some x.2 else none := by
  induction l with
  | nil => simp [mapFind_cons, mapFind]
  | cons a l ih =>
    rw [containsKey_cons] at h
    simp only [Bool.or_eq_false_iff] at h
    rw [List.cons_append, mapFind_cons]
    simp only [h.1, Bool.false_eq_true, if_false]
    exact ih h.2

theorem mapFind_mapUpsertArr_self {l : List (Int × TableInstances)} {tablet_id : Int}
    {arr : List Tablet} :
    mapFind (mapUpsertArr l tablet_id arr) tablet_id = some ⟨arr⟩ := by
  unfold mapUpsertArr
  by_cases h : containsKey l tablet_id
  · simp only [h, if_true]
    exact mapFind_mapSetArr_self h
  · have h' : containsKey l tablet_id = false := by simpa using h
    simp only [h', Bool.false_eq_true, if_false]
    rw [mapFind_append_absent _ h']
    simp

theorem mapFind_mapUpsertArr_ne {l : List (Int × TableInstances)} {tablet_id id' : Int}
    {arr : List Tablet} (h : id' ≠ tablet_id) :
    mapFind (mapUpsertArr l tablet_id arr) id' = mapFind l id' := by
  unfold mapUpsertArr
  by_cases hc : containsKey l tablet_id
  · simp only [hc, if_true]
    exact mapFind_mapSetArr_ne h
  · have hc' : containsKey l tablet_id = false := by simpa using hc
    simp only [hc', Bool.false_eq_true, if_false]
    unfold mapFind
    rw [List.find?_append]
    have hne : ((tablet_id : Int) == id') = false := by
      simp
      exact fun hc2 => h hc2.symm
    cases hl : l.find? (fun p => p.1 == id') with
    | some v => simp
    | none => simp [List.find?_cons, hne]

theorem containsKey_eq_isSome_mapFind (l : List (Int × TableInstances)) (tablet_id : Int) :
    containsKey l tablet_id = (mapFind l tablet_id).isSome := by
  unfold containsKey mapFind
  cases l.find? (fun p => p.1 == tablet_id) <;> simp

theorem mem_mapSetArr {l : List (Int × TableInstances)} {tablet_id : Int} {arr : List Tablet}
    {p : Int × TableInstances} (hp : p ∈ mapSetArr l tablet_id arr) :
    (p.1 = tablet_id ∧ p.2.table_arr = arr) ∨ (p ∈ l ∧ p.1 ≠ tablet_id) := by
  unfold mapSetArr at hp
  obtain ⟨q, hq, hfq⟩ := List.mem_map.mp hp
  by_cases h : (q.1 == tablet_id)
  · left
    rw [if_pos h] at hfq
    subst hfq
    exact ⟨by simpa using h, rfl⟩
  · right
    rw [if_neg h] at hfq
    subst hfq
    exact ⟨hq, by simpa using h⟩

theorem mem_mapEraseKey {l : List (Int × TableInstances)} {tablet_id : Int}
    {p : Int × TableInstances} (hp : p ∈ mapEraseKey l tablet_id) :
    p ∈ l ∧ p.1 ≠ tablet_id := by
  unfold mapEraseKey at hp
  refine ⟨List.mem_of_mem_filter hp, ?_⟩
  have := List.of_mem_filter hp
  simpa using this

theorem mem_mapUpsertArr {l : List (Int × TableInstances)} {tablet_id : Int} {arr : List Tablet}
    {p : Int × TableInstances} (hp : p ∈ mapUpsertArr l tablet_id arr) :
    (p.1 = tablet_id ∧ p.2.table_arr = arr) ∨ (p ∈ l ∧ p.1 ≠ tablet_id) := by
  unfold mapUpsertArr at hp
  by_cases h : containsKey l tablet_id
  · rw [if_pos h] at hp
    exact mem_mapSetArr hp
  · have h' : containsKey l tablet_id = false := by simpa using h
    rw [h'] at hp
    simp only [Bool.false_eq_true, if_false] at hp
    rcases List.mem_append.mp hp with hl | hr
    · exact Or.inr ⟨hl, containsKey_false_forall h' p hl⟩
    · left
      rcases List.mem_singleton.mp hr with rfl
      exact ⟨rfl, rfl⟩

theorem mem_ensureKey {l : List (Int × TableInstances)} {tablet_id : Int}
    {p : Int × TableInstances} (hp : p ∈ ensureKey l tablet_id) :
    p ∈ l ∨ (p.1 = tablet_id ∧ p.2.table_arr = []) := by
  unfold ensureKey at hp
  by_cases h : containsKey l tablet_id
  · rw [if_pos h] at hp
    exact Or.inl hp
  · have h' : containsKey l tablet_id = false := by simpa using h
    rw [h'] at hp
    simp only [Bool.false_eq_true, if_false] at hp
    rcases List.mem_append.mp hp with hl | hr
    · exact Or.inl hl
    · right
      rcases List.mem_singleton.mp hr with rfl
      exact ⟨rfl, rfl⟩

theorem mem_updateTabletInMap {l : List (Int × TableInstances)} {tablet_id schema_hash : Int}
    {t' : Tablet} {p : Int × TableInstances}
    (hp : p ∈ updateTabletInMap l tablet_id schema_hash t') :
    ∃ q ∈ l, p.2.table_arr.length = q.2.table_arr.length := by
  unfold updateTabletInMap at hp
  obtain ⟨q, hq, hfq⟩ := List.mem_map.mp hp
  refine ⟨q, hq, ?_⟩
  by_cases h : (q.1 == tablet_id)
  · rw [if_pos h] at hfq
    subst hfq
    simp
  · rw [if_neg h] at hfq
    subst hfq
    rfl

theorem sortByCreationTime_perm (l : List Tablet) : (sortByCreationTime l).Perm l :=
  List.perm_insertionSort _ l

theorem sortByCreationTime_ne_nil {l : List Tablet} (h : l ≠ []) :
    sortByCreationTime l ≠ [] := by
  intro hc
  apply h
  have := (sortByCreationTime_perm l).length_eq
  rw [hc] at this
  exact List.length_eq_zero.mp this.symm

theorem mapGetArr_ne_nil_containsKey {l : List (Int × TableInstances)} {tablet_id : Int}
    (h : mapGetArr l tablet_id ≠ []) : containsKey l tablet_id = true := by
  rw [containsKey_eq_isSome_mapFind]
  unfold mapGetArr at h
  cases hf : mapFind l tablet_id with
  | none => rw [hf] at h; simp at h
  | some v => simp

theorem find_kept_none (arr : List Tablet) (tablet_id schema_hash : Int) :
    (arr.filter (fun t => !t.equal tablet_id schema_hash)).find?
      (fun t => t.equal tablet_id schema_hash) = none := by
  rw [List.find?_eq_none]
  intro x hx
  have := List.of_mem_filter hx
  simp only [Bool.not_eq_true'] at this
  simp [this]

theorem mapGetArr_removeFromBucket_self_find (l : List (Int × TableInstances))
    (tablet_id schema_hash : Int) :
    (mapGetArr (removeFromBucket l tablet_id schema_hash) tablet_id).find?
      (fun t => t.equal tablet_id schema_hash) = none := by
  unfold removeFromBucket
  set arr := mapGetArr l tablet_id with harr
  set kept := arr.filter (fun t => !t.equal tablet_id schema_hash) with hkept
  by_cases hk : kept.isEmpty
  · simp only [hk, if_true]
    unfold mapGetArr
    rw [mapFind_mapEraseKey_self]
    rfl
  · simp only [hk, Bool.false_eq_true, if_false]
    have harrne : arr ≠ [] := by
      intro hc
      rw [hc] at hkept
      simp [hkept] at hk
    have hck : containsKey l tablet_id = true := mapGetArr_ne_nil_containsKey harrne
    unfold mapGetArr
    rw [mapFind_mapSetArr_self hck]
    exact find_kept_none arr tablet_id schema_hash

theorem mapFind_removeFromBucket_ne (l : List (Int × TableInstances))
    {tablet_id : Int} (schema_hash : Int) {id' : Int} (h : id' ≠ tablet_id) :
    mapFind (removeFromBucket l tablet_id schema_hash) id' = mapFind l id' := by
  unfold removeFromBucket
  by_cases hk : ((mapGetArr l tablet_id).filter
      (fun t => !t.equal tablet_id schema_hash)).isEmpty
  · simp only [hk, if_true]
    rw [mapFind_mapEraseKey_ne h, mapFind_mapSetArr_ne h]
  · simp only [hk, Bool.false_eq_true, if_false]
    rw [mapFind_mapSetArr_ne h]

theorem mapGetArr_removeFromBucket_pair (l : List (Int × TableInstances))
    {tablet_id schema_hash id' hash' : Int}
    (h : ¬(id' = tablet_id ∧ hash' = schema_hash)) :
    (mapGetArr (removeFromBucket l tablet_id schema_hash) id').find?
        (fun t => t.equal id' hash') =
      (mapGetArr l id').find? (fun t => t.equal id' hash') := by
  by_cases hid : id' = tablet_id
  · subst hid
    have hhash : hash' ≠ schema_hash := fun hc => h ⟨rfl, hc⟩
    have himp : ∀ t : Tablet, t.equal id' hash' = true →
        (!t.equal id' schema_hash) = true := by
      intro t ht
      simp only [Tablet.equal, Bool.and_eq_true, beq_iff_eq] at ht
      simp [Tablet.equal, ht.2, hhash]
    unfold removeFromBucket
    set arr := mapGetArr l id' with harr
    set kept := arr.filter (fun t => !t.equal id' schema_hash) with hkept
    by_cases hk : kept.isEmpty
    · simp only [hk, if_true]
      have hkept_nil : kept = [] := by simpa [List.isEmpty_iff] using hk
      have hforall : ∀ t ∈ arr, ¬((!t.equal id' schema_hash) = true) := by
        intro t ht hc
        have : t ∈ kept := by
          rw [hkept]
          exact List.mem_filter.mpr ⟨ht, hc⟩
        rw [hkept_nil] at this
        simp at this
      have hrhs : arr.find? (fun t => t.equal id' hash') = none := by
        rw [List.find?_eq_none]
        intro x hx hc
        exact hforall x hx (himp x hc)
      unfold mapGetArr
      rw [mapFind_mapEraseKey_self]
      simp [hrhs]
    · simp only [hk, Bool.false_eq_true, if_false]
      have harrne : arr ≠ [] := by
        intro hc
        rw [hc] at hkept
        simp [hkept] at hk
      have hck : containsKey l id' = true := mapGetArr_ne_nil_containsKey harrne
      unfold mapGetArr
      rw [mapFind_mapSetArr_self hck]
      exact find_filter_of_imp _ _ arr himp
  · unfold mapGetArr
    rw [mapFind_removeFromBucket_ne l schema_hash hid]

theorem BNE_removeFromBucket {l : List (Int × TableInstances)} {tablet_id schema_hash : Int}
    (h : ∀ p ∈ l, p.2.table_arr ≠ []) :
    ∀ p ∈ removeFromBucket l tablet_id schema_hash, p.2.table_arr ≠ [] := by
  intro p hp
  unfold removeFromBucket at hp
  set kept := (mapGetArr l tablet_id).filter (fun t => !t.equal tablet_id schema_hash) with hkept
  by_cases hk : kept.isEmpty
  · simp only [hk, if_true] at hp
    obtain ⟨hp1, hp2⟩ := mem_mapEraseKey hp
    rcases mem_mapSetArr hp1 with ⟨heq, _⟩ | ⟨hmem, _⟩
    · exact absurd heq hp2
    · exact h p hmem
  · simp only [hk, Bool.false_eq_true, if_false] at hp
    rcases mem_mapSetArr hp with ⟨_, harr⟩ | ⟨hmem, _⟩
    · rw [harr]
      intro hc
      rw [hc] at hk
      simp at hk
    · exact h p hmem

theorem get_eq_find_bucket (m : TabletManager) (tablet_id schema_hash : Int) :
    m._get_tablet_with_no_lock tablet_id schema_hash =
      (mapGetArr m.tablet_map tablet_id).find? (fun t => t.equal tablet_id schema_hash) := by
  unfold TabletManager._get_tablet_with_no_lock mapGetArr
  cases mapFind m.tablet_map tablet_id <;> rfl

theorem internal_create_sc_result (m : TabletManager) (request : TCreateTabletReq)
    (ref built : Tablet) (now : Int) :
    (m._internal_create_tablet request true (some ref) (some built) now).1 = none ∨
    (m._internal_create_tablet request true (some ref) (some built) now).1 =
      some (if built.creation_time ≤ ref.creation_time then
        { built with creation_time := ref.creation_time + 1 } else built) := by
  unfold TabletManager._internal_create_tablet
  cases hget : m._get_tablet_with_no_lock request.tablet_id request.tablet_schema.schema_hash with
  | some t => exact Or.inl rfl
  | none =>
    simp only [Bool.not_true, Bool.false_eq_true, if_false]
    by_cases hc : built.creation_time ≤ ref.creation_time
    · simp only [hc, if_pos, if_true]
      split
      · exact Or.inl rfl
      · split
        · exact Or.inl rfl
        · split
          · exact Or.inl rfl
          · right
            simp [hc]
    · simp only [hc, Bool.false_eq_true, if_false]
      split
      · exact Or.inl rfl
      · split
        · exact Or.inl rfl
        · split
          · exact Or.inl rfl
          · right
            simp [hc]

/-- C5: a schema-change creation that publishes a tablet yields a
creation time strictly greater than the reference tablet's; whenever the
built tablet's creation time is not greater, it is bumped to exactly
ref.creation_time + 1. -/
theorem schema_change_creation_time_strict (m : TabletManager) (request : TCreateTabletReq)
    (ref built t' : Tablet) (m' : TabletManager) (now : Int)
    (h : m._internal_create_tablet request true (some ref) (some built) now = (some t', m')) :
    ref.creation_time < t'.creation_time ∧
      (built.creation_time ≤ ref.creation_time →
        t'.creation_time = ref.creation_time + 1) := by
  have h1 : (m._internal_create_tablet request true (some ref) (some built) now).1 = some t' := by
    rw [h]
  rcases internal_create_sc_result m request ref built now with hn | hs
  · rw [h1] at hn
    exact absurd hn (by simp)
  · rw [h1] at hs
    by_cases hc : built.creation_time ≤ ref.creation_time
    · rw [if_pos hc] at hs
      have ht : t' = { built with creation_time := ref.creation_time + 1 } :=
        Option.some_injective _ hs
      subst ht
      constructor
      · simp
      · intro _
        rfl
    · rw [if_neg hc] at hs
      have ht : t' = built := Option.some_injective _ hs
      subst ht
      constructor
      · omega
      · intro hcc
        exact absurd hcc hc

/-- Witness for C5: publishing scBuiltTablet (creation time 5) against
sampleTablet (creation time 10) bumps its creation time to 11. -/
theorem schema_change_creation_time_strict_witness :
    sampleTablet.creation_time <
      ({ scBuiltTablet with creation_time := sampleTablet.creation_time + 1 }
        : Tablet).creation_time ∧
      (scBuiltTablet.creation_time ≤ sampleTablet.creation_time →
        ({ scBuiltTablet with creation_time := sampleTablet.creation_time + 1 }
          : Tablet).creation_time = sampleTablet.creation_time + 1) :=
  schema_change_creation_time_strict TabletManager.empty scRequest sampleTablet scBuiltTablet
    { scBuiltTablet with creation_time := sampleTablet.creation_time + 1 }
    (TabletManager.empty._internal_create_tablet scRequest true (some sampleTablet)
      (some scBuiltTablet) 50).2
    50 (by decide)

/-- C6: load_tablet_from_meta returns HEADER_PB_PARSE_FAILED when the
meta does not deserialize; pushes a TABLET_SHUTDOWN tablet onto the
shutdown queue without registering it and returns
TABLE_ALREADY_DELETED_ERROR; and returns TABLE_INDEX_VALIDATE_ERROR
without registering when the tablet has no max version and no alter
task. -/
theorem load_tablet_from_meta_error_paths (m : TabletManager) (data_dir : Nat)
    (tablet_id schema_hash : Int) (meta : Tablet) (update_meta force : Bool) :
    (m.load_tablet_from_meta data_dir tablet_id schema_hash none update_meta force
        = (ERR_HEADER_PB_PARSE_FAILED, m)) ∧
    (meta.tablet_state = TabletState.TABLET_SHUTDOWN →
      m.load_tablet_from_meta data_dir tablet_id schema_hash (some meta) update_meta force
        = (ERR_TABLE_ALREADY_DELETED_ERROR,
            { m with shutdown_tablets :=
                m.shutdown_tablets ++ [{ meta with data_dir := data_dir }] })) ∧
    (meta.tablet_state ≠ TabletState.TABLET_SHUTDOWN →
      Tablet.maxVersionFirst { meta with data_dir := data_dir } = -1 →
      meta.alter_task = none →
      m.load_tablet_from_meta data_dir tablet_id schema_hash (some meta) update_meta force
        = (ERR_TABLE_INDEX_VALIDATE_ERROR, m)) := by
  refine ⟨rfl, ?_, ?_⟩
  · intro hstate
    unfold TabletManager.load_tablet_from_meta
    have : (({ meta with data_dir := data_dir } : Tablet).tablet_state
        == TabletState.TABLET_SHUTDOWN) = true := by
      simp [hstate]
    simp only [this, if_true]
  · intro hstate hmax halter
    unfold TabletManager.load_tablet_from_meta
    have h1 : (({ meta with data_dir := data_dir } : Tablet).tablet_state
        == TabletState.TABLET_SHUTDOWN) = false := by
      simpa using hstate
    have h2 : ((Tablet.maxVersionFirst { meta with data_dir := data_dir } == -1)
        && ({ meta with data_dir := data_dir } : Tablet).alter_task.isNone) = true := by
      rw [hmax]
      simp [halter]
    simp only [h1, Bool.false_eq_true, if_false, h2, if_true]

/-- Witness for C6: a parse failure, a SHUTDOWN meta, and a meta with
neither rowsets nor an alter task exercise the three error paths. -/
theorem load_tablet_from_meta_error_paths_witness :
    (TabletManager.empty.load_tablet_from_meta 1 100 7 none true false
        = (ERR_HEADER_PB_PARSE_FAILED, TabletManager.empty)) ∧
    (TabletManager.empty.load_tablet_from_meta 1 100 7 (some shutdownMeta) true false
        = (ERR_TABLE_ALREADY_DELETED_ERROR,
            { TabletManager.empty with shutdown_tablets :=
                TabletManager.empty.shutdown_tablets ++
                  [{ shutdownMeta with data_dir := 1 }] })) ∧
    (TabletManager.empty.load_tablet_from_meta 1 100 7 (some sampleTablet) true false
        = (ERR_TABLE_INDEX_VALIDATE_ERROR, TabletManager.empty)) :=
  ⟨(load_tablet_from_meta_error_paths TabletManager.empty 1 100 7 shutdownMeta true false).1,
   (load_tablet_from_meta_error_paths TabletManager.empty 1 100 7 shutdownMeta true false).2.1
     (by decide),
   (load_tablet_from_meta_error_paths TabletManager.empty 1 100 7 sampleTablet true false).2.2
     (by decide) (by decide) (by decide)⟩

/-- C7: with request.version at least 1 the initial-rowset build
succeeds, appending exactly one empty VISIBLE alpha rowset covering
(0, request.version) with the request's version hash, setting the
cumulative layer point to request.version + 1 and saving the meta; with
request.version below 1 it returns CE_CMD_PARAMS_ERROR and changes
nothing. -/
theorem create_inital_rowset_spec (m : TabletManager) (tablet : Tablet)
    (request : TCreateTabletReq) (now : Int) :
    (1 ≤ request.version → InitalRowsetOk m tablet request now) ∧
    (request.version < 1 →
      m._create_inital_rowset tablet request now = (ERR_CE_CMD_PARAMS_ERROR, tablet, m)) := by
  constructor
  · intro hv
    unfold InitalRowsetOk TabletManager._create_inital_rowset
    rw [if_neg (by omega), if_neg (by omega)]
    exact ⟨rfl, rfl, rfl, rfl⟩
  · intro hv
    unfold TabletManager._create_inital_rowset
    rw [if_pos hv]

/-- Witness for C7: building the initial rowset of sampleRequest
(version 2) on sampleTablet. -/
theorem create_inital_rowset_spec_witness :
    InitalRowsetOk TabletManager.empty sampleTablet sampleRequest 50 :=
  (create_inital_rowset_spec TabletManager.empty sampleTablet sampleRequest 50).1 (by decide)

/-- C10: get_tablet falls back to the shutdown queue when the registry
misses and include_deleted is set, and in every case filters out a
tablet that is not usable. -/
theorem get_tablet_spec (m : TabletManager) (tablet_id schema_hash : Int)
    (include_deleted : Bool) :
    (∀ t, m._get_tablet_with_no_lock tablet_id schema_hash = some t →
      m.get_tablet tablet_id schema_hash include_deleted =
        if t.is_used then some t else none) ∧
    (m._get_tablet_with_no_lock tablet_id schema_hash = none →
      m.get_tablet tablet_id schema_hash true =
        (match m.shutdown_tablets.find?
            (fun d => d.tablet_id == tablet_id && d.schema_hash == schema_hash) with
         | some d => if d.is_used then some d else none
         | none => none) ∧
      m.get_tablet tablet_id schema_hash false = none) := by
  constructor
  · intro t ht
    unfold TabletManager.get_tablet
    rw [ht]
    simp only [Option.isNone_some, Bool.false_and, Bool.false_eq_true, if_false]
    cases hu : t.is_used <;> simp [hu]
  · intro ht
    constructor
    · unfold TabletManager.get_tablet
      rw [ht]
      simp only [Option.isNone_none, Bool.true_and, if_true]
      cases hf : m.shutdown_tablets.find?
          (fun d => d.tablet_id == tablet_id && d.schema_hash == schema_hash) with
      | none => rfl
      | some d => cases hu : d.is_used <;> simp [hu]
    · unfold TabletManager.get_tablet
      rw [ht]
      simp

/-- Witness for C10: the registered, usable sampleTablet is returned as
is; on the empty manager the shutdown queue is consulted and yields
nothing. -/
theorem get_tablet_spec_witness :
    (singletonManager.get_tablet 100 7 false =
      if sampleTablet.is_used then some sampleTablet else none) ∧
    TabletManager.empty.get_tablet 100 7 true =
      (match TabletManager.empty.shutdown_tablets.find?
          (fun d => d.tablet_id == 100 && d.schema_hash == 7) with
       | some d => if d.is_used then some d else none
       | none => none) :=
  ⟨(get_tablet_spec singletonManager 100 7 false).1 sampleTablet (by decide),
   ((get_tablet_spec TabletManager.empty 100 7 true).2 (by decide)).1⟩

theorem countMatching_pos {m : TabletManager} {tablet_id schema_hash : Int} {t : Tablet}
    (hget : m._get_tablet_with_no_lock tablet_id schema_hash = some t) :
    1 ≤ countMatching m tablet_id schema_hash := by
  rw [get_eq_find_bucket] at hget
  have hmem := List.mem_of_find?_eq_some hget
  have hp := List.find?_some hget
  unfold countMatching
  have hmf : t ∈ (mapGetArr m.tablet_map tablet_id).filter
      (fun t => t.equal tablet_id schema_hash) :=
    List.mem_filter.mpr ⟨hmem, hp⟩
  have := List.length_pos.mpr (List.ne_nil_of_mem hmf)
  omega

/-- C1: create_tablet on an already-populated tablet_id is idempotent on
the exact (tablet_id, schema_hash) duplicate, leaving the registry with
its single matching instance, and conflicts with CE_TABLET_ID_EXIST on a
schema-hash mismatch, changing nothing. -/
theorem create_tablet_idempotent (m : TabletManager) (request : TCreateTabletReq)
    (built : Option Tablet) (now : Int)
    (hwf : countMatching m request.tablet_id request.tablet_schema.schema_hash ≤ 1)
    (hex : m._check_tablet_id_exist_unlock request.tablet_id = true) :
    (∀ t, m._get_tablet_with_no_lock request.tablet_id request.tablet_schema.schema_hash
        = some t →
      m.create_tablet request built now = (OLAP_SUCCESS, m) ∧
        countMatching m request.tablet_id request.tablet_schema.schema_hash = 1) ∧
    (m._get_tablet_with_no_lock request.tablet_id request.tablet_schema.schema_hash = none →
      m.create_tablet request built now = (ERR_CE_TABLET_ID_EXIST, m)) := by
  constructor
  · intro t hget
    constructor
    · unfold TabletManager.create_tablet
      rw [hex, if_pos rfl, hget]
    · have h1 := countMatching_pos hget
      omega
  · intro hget
    unfold TabletManager.create_tablet
    rw [hex, if_pos rfl, hget]

/-- Witness for C1: re-creating sampleTablet's identity succeeds and
leaves one instance; creating schema hash 9 under the same id fails. -/
theorem create_tablet_idempotent_witness :
    (singletonManager.create_tablet sampleRequest none 0 = (OLAP_SUCCESS, singletonManager) ∧
      countMatching singletonManager 100 7 = 1) ∧
    singletonManager.create_tablet
        { sampleRequest with tablet_schema := ⟨9⟩ } none 0
      = (ERR_CE_TABLET_ID_EXIST, singletonManager) :=
  ⟨(create_tablet_idempotent singletonManager sampleRequest none 0 (by decide)
      (by decide)).1 sampleTablet (by decide),
   (create_tablet_idempotent singletonManager { sampleRequest with tablet_schema := ⟨9⟩ }
      none 0 (by decide) (by decide)).2 (by decide)⟩

theorem bne_of_map_eq {m m' : TabletManager} (h : m'.tablet_map = m.tablet_map)
    (hb : BucketsNonempty m) : BucketsNonempty m' := by
  intro p hp
  rw [h] at hp
  exact hb p hp

theorem bne_drop_directly {m : TabletManager} (tablet_id schema_hash : Int) (keep_files : Bool)
    (h : BucketsNonempty m) :
    BucketsNonempty (m._drop_tablet_directly_unlocked tablet_id schema_hash keep_files).2 := by
  unfold TabletManager._drop_tablet_directly_unlocked
  cases hget : m._get_tablet_with_no_lock tablet_id schema_hash with
  | none => exact h
  | some d => exact fun p hp => BNE_removeFromBucket h p hp

theorem bne_updateTabletInMap {l : List (Int × TableInstances)} {tablet_id schema_hash : Int}
    {t' : Tablet} (h : ∀ p ∈ l, p.2.table_arr ≠ []) :
    ∀ p ∈ updateTabletInMap l tablet_id schema_hash t', p.2.table_arr ≠ [] := by
  intro p hp hc
  obtain ⟨q, hq, hlen⟩ := mem_updateTabletInMap hp
  rw [hc] at hlen
  exact h q hq (List.length_eq_zero.mp hlen.symm)

theorem bne_drop_unlock {m : TabletManager} (tablet_id schema_hash : Int) (keep_files : Bool)
    (h : BucketsNonempty m) :
    BucketsNonempty (m._drop_tablet_unlock tablet_id schema_hash keep_files).2 := by
  unfold TabletManager._drop_tablet_unlock
  cases hget : m._get_tablet_with_no_lock tablet_id schema_hash with
  | none => exact h
  | some d =>
    dsimp only
    cases halter : d.alter_task with
    | none => exact bne_drop_directly tablet_id schema_hash keep_files h
    | some task =>
      dsimp only
      cases hrel : m._get_tablet_with_no_lock task.related_tablet_id task.related_schema_hash with
      | none => exact bne_drop_directly tablet_id schema_hash keep_files h
      | some rel =>
        dsimp only
        split
        · exact h
        · exact bne_drop_directly tablet_id schema_hash keep_files
            (bne_of_map_eq rfl (fun p hp => bne_updateTabletInMap h p hp))

theorem bne_upsert {l : List (Int × TableInstances)} {tablet_id : Int} {arr : List Tablet}
    (harr : arr ≠ []) (h : ∀ p ∈ l, p.1 ≠ tablet_id → p.2.table_arr ≠ []) :
    ∀ p ∈ mapUpsertArr l tablet_id arr, p.2.table_arr ≠ [] := by
  intro p hp
  rcases mem_mapUpsertArr hp with ⟨_, he⟩ | ⟨hm, hne⟩
  · rw [he]; exact harr
  · exact h p hm hne

theorem sorted_snoc_ne_nil (l : List Tablet) (t : Tablet) :
    sortByCreationTime (l ++ [t]) ≠ [] :=
  sortByCreationTime_ne_nil (by simp)

theorem add_to_map_false_fst (m : TabletManager) (tablet_id schema_hash : Int) (t : Tablet)
    (update_meta keep_files : Bool) :
    (m._add_tablet_to_map tablet_id schema_hash t update_meta keep_files false).1
      = OLAP_SUCCESS := by
  unfold TabletManager._add_tablet_to_map
  dsimp only
  rw [if_neg (by simp)]

theorem add_to_map_false_map (m : TabletManager) (tablet_id schema_hash : Int) (t : Tablet)
    (update_meta keep_files : Bool) :
    ((m._add_tablet_to_map tablet_id schema_hash t update_meta keep_files false).2).tablet_map
      = mapUpsertArr m.tablet_map tablet_id
          (sortByCreationTime (mapGetArr m.tablet_map tablet_id ++ [t])) := by
  unfold TabletManager._add_tablet_to_map
  dsimp only
  rw [if_neg (by simp)]
  by_cases hu : update_meta <;> simp [hu]

theorem bne_add_to_map_false {m : TabletManager} (tablet_id schema_hash : Int) (t : Tablet)
    (update_meta keep_files : Bool)
    (h : ∀ p ∈ m.tablet_map, p.1 ≠ tablet_id → p.2.table_arr ≠ []) :
    BucketsNonempty (m._add_tablet_to_map tablet_id schema_hash t
      update_meta keep_files false).2 := by
  intro p hp
  rw [add_to_map_false_map] at hp
  exact bne_upsert (sorted_snoc_ne_nil _ _) h p hp

theorem bne_add_to_map_true {m : TabletManager} (tablet_id schema_hash : Int) (t : Tablet)
    (update_meta keep_files : Bool) (h : BucketsNonempty m) :
    BucketsNonempty (m._add_tablet_to_map tablet_id schema_hash t
      update_meta keep_files true).2 := by
  unfold TabletManager._add_tablet_to_map
  dsimp only
  simp only [eq_self_iff_true, if_true]
  have hm1 : BucketsNonempty
      (if update_meta then { m with meta_store := metaSave m.meta_store t } else m) := by
    by_cases hu : update_meta
    · rw [if_pos hu]; exact h
    · rw [if_neg hu]; exact h
  set m1 := if update_meta then { m with meta_store := metaSave m.meta_store t } else m with hm1def
  set d := m1._drop_tablet_unlock tablet_id schema_hash keep_files with hddef
  have hd : BucketsNonempty d.2 := bne_drop_unlock tablet_id schema_hash keep_files hm1
  by_cases h1 : d.1 ≠ OLAP_SUCCESS
  · rw [if_pos h1]
    exact hd
  · rw [if_neg h1]
    intro p hp
    dsimp only at hp
    exact bne_upsert (sorted_snoc_ne_nil _ _) (fun q hq _ => hd q hq) p hp

theorem mapGetArr_ensureKey_absent {l : List (Int × TableInstances)} {tablet_id : Int}
    (h : containsKey l tablet_id = false) :
    mapGetArr (ensureKey l tablet_id) tablet_id = [] := by
  unfold ensureKey
  rw [h]
  simp only [Bool.false_eq_true, if_false]
  unfold mapGetArr
  rw [mapFind_append_absent _ h]
  simp

theorem bne_add_unlock {m : TabletManager} (tablet_id schema_hash : Int) (t : Tablet)
    (update_meta force : Bool) (h : BucketsNonempty m) :
    BucketsNonempty (m._add_tablet_unlock tablet_id schema_hash t update_meta force).2 := by
  unfold TabletManager._add_tablet_unlock
  dsimp only
  cases hfind : (mapGetArr (ensureKey m.tablet_map tablet_id) tablet_id).find?
      (fun x => x.equal tablet_id schema_hash) with
  | none =>
    apply bne_add_to_map_false
    intro p hp hpne
    rcases mem_ensureKey hp with hm | ⟨he, _⟩
    · exact h p hm
    · exact absurd he hpne
  | some item =>
    have hbne0 : ∀ p ∈ ensureKey m.tablet_map tablet_id, p.2.table_arr ≠ [] := by
      intro p hp
      rcases mem_ensureKey hp with hm | ⟨he, harr⟩
      · exact h p hm
      · by_cases hck : containsKey m.tablet_map tablet_id
        · unfold ensureKey at hp
          rw [if_pos hck] at hp
          exact h p hp
        · have hck' : containsKey m.tablet_map tablet_id = false := by simpa using hck
          rw [mapGetArr_ensureKey_absent hck'] at hfind
          simp at hfind
    dsimp only
    split
    · exact hbne0
    · split
      · exact hbne0
      · cases hnr : rowsetWithMaxVersion t.rowsets with
        | none => exact hbne0
        | some nr =>
          dsimp only
          split
          · exact bne_add_to_map_true _ _ _ _ _ hbne0
          · exact hbne0

theorem create_inital_map (m : TabletManager) (tablet : Tablet) (request : TCreateTabletReq)
    (now : Int) :
    ((m._create_inital_rowset tablet request now).2.2).tablet_map = m.tablet_map := by
  unfold TabletManager._create_inital_rowset
  split
  · rfl
  · split
    · rfl
    · rfl

theorem bne_internal_tail (req : TCreateTabletReq) (st : OLAPStatus) (tablet1 : Tablet)
    (m1 : TabletManager) (h1 : BucketsNonempty m1) :
    BucketsNonempty
      (if st ≠ OLAP_SUCCESS then
        ((none : Option Tablet),
          { m1 with
            meta_store := metaRemove m1.meta_store tablet1.data_dir req.tablet_id
              req.tablet_schema.schema_hash })
      else if (m1._add_tablet_unlock req.tablet_id req.tablet_schema.schema_hash tablet1
          true false).1 ≠ OLAP_SUCCESS then
        ((none : Option Tablet),
          { (m1._add_tablet_unlock req.tablet_id req.tablet_schema.schema_hash tablet1 true false).2 with
            meta_store := metaRemove (m1._add_tablet_unlock req.tablet_id
                req.tablet_schema.schema_hash tablet1 true false).2.meta_store
              tablet1.data_dir req.tablet_id req.tablet_schema.schema_hash })
      else
        match (m1._add_tablet_unlock req.tablet_id req.tablet_schema.schema_hash tablet1
            true false).2._get_tablet_with_no_lock req.tablet_id
            req.tablet_schema.schema_hash with
        | none =>
          ((none : Option Tablet),
            ((m1._add_tablet_unlock req.tablet_id req.tablet_schema.schema_hash tablet1
              true false).2._drop_tablet_unlock req.tablet_id
              req.tablet_schema.schema_hash false).2)
        | some _ =>
          (some tablet1, (m1._add_tablet_unlock req.tablet_id req.tablet_schema.schema_hash
            tablet1 true false).2)).2 := by
  have hadd := bne_add_unlock req.tablet_id req.tablet_schema.schema_hash tablet1 true false h1
  by_cases hst : st ≠ OLAP_SUCCESS
  · rw [if_pos hst]
    exact fun p hp => h1 p hp
  · rw [if_neg hst]
    by_cases ha : (m1._add_tablet_unlock req.tablet_id req.tablet_schema.schema_hash tablet1
        true false).1 ≠ OLAP_SUCCESS
    · rw [if_pos ha]
      exact fun p hp => hadd p hp
    · rw [if_neg ha]
      cases hg : (m1._add_tablet_unlock req.tablet_id req.tablet_schema.schema_hash tablet1
          true false).2._get_tablet_with_no_lock req.tablet_id
          req.tablet_schema.schema_hash with
      | none => exact bne_drop_unlock _ _ _ hadd
      | some t => exact hadd

theorem bne_internal_create {m : TabletManager} (req : TCreateTabletReq) (isc : Bool)
    (ref built : Option Tablet) (now : Int) (h : BucketsNonempty m) :
    BucketsNonempty (m._internal_create_tablet req isc ref built now).2 := by
  unfold TabletManager._internal_create_tablet
  cases hget : m._get_tablet_with_no_lock req.tablet_id req.tablet_schema.schema_hash with
  | some t0 => exact h
  | none =>
    cases built with
    | none => exact h
    | some tablet0 =>
      dsimp only
      refine bne_internal_tail req _ _ _ ?_
      apply bne_of_map_eq _ h
      cases isc with
      | false =>
        simp only [Bool.not_false, if_true]
        exact create_inital_map m tablet0 req now
      | true =>
        simp only [Bool.not_true, Bool.false_eq_true, if_false]
        cases ref with
        | none => rfl
        | some r =>
          dsimp only
          split
          · rfl
          · rfl

theorem bne_create_tablet {m : TabletManager} (req : TCreateTabletReq)
    (built : Option Tablet) (now : Int) (h : BucketsNonempty m) :
    BucketsNonempty (m.create_tablet req built now).2 := by
  unfold TabletManager.create_tablet
  by_cases hck : m._check_tablet_id_exist_unlock req.tablet_id
  · rw [if_pos hck]
    cases hget : m._get_tablet_with_no_lock req.tablet_id req.tablet_schema.schema_hash with
    | some t => exact h
    | none => exact h
  · rw [if_neg hck]
    have hi := bne_internal_create req false none built now h
    cases hic : m._internal_create_tablet req false none built now with
    | mk o m' =>
      rw [hic] at hi
      cases o with
      | none => exact hi
      | some t => exact hi

theorem bne_load {m : TabletManager} (data_dir : Nat) (tablet_id schema_hash : Int)
    (meta_binary : Option Tablet) (update_meta force : Bool) (h : BucketsNonempty m) :
    BucketsNonempty (m.load_tablet_from_meta data_dir tablet_id schema_hash meta_binary
      update_meta force).2 := by
  unfold TabletManager.load_tablet_from_meta
  cases meta_binary with
  | none => exact h
  | some meta =>
    dsimp only
    split
    · exact h
    · split
      · exact h
      · exact bne_add_unlock tablet_id schema_hash _ update_meta force h

theorem bne_applyOp {m : TabletManager} (op : Op) (h : BucketsNonempty m) :
    BucketsNonempty (applyOp m op) := by
  cases op with
  | create request built now => exact bne_create_tablet request built now h
  | drop tablet_id schema_hash keep_files =>
    exact bne_drop_unlock tablet_id schema_hash keep_files h
  | load data_dir tablet_id schema_hash meta_binary update_meta force =>
    exact bne_load data_dir tablet_id schema_hash meta_binary update_meta force h

/-- C3: along every sequence of create, drop and load operations from
the empty manager (failing ones included), every tablet_id key present
in the registry map has a non-empty instance sequence: a bucket whose
sequence becomes empty is erased. -/
theorem registry_buckets_nonempty_invariant (ops : List Op) :
    BucketsNonempty (applyOps TabletManager.empty ops) := by
  have hgen : ∀ (l : List Op) (m : TabletManager), BucketsNonempty m →
      BucketsNonempty (applyOps m l) := by
    intro l
    induction l with
    | nil => intro m hm; exact hm
    | cons op rest ih => intro m hm; exact ih (applyOp m op) (bne_applyOp op hm)
  apply hgen
  intro p hp
  simp [TabletManager.empty] at hp

/-- Witness for C3: the invariant evaluated after one creating
operation. -/
theorem registry_buckets_nonempty_invariant_witness :
    BucketsNonempty (applyOps TabletManager.empty
      [Op.create sampleRequest (some sampleTablet) 50]) :=
  registry_buckets_nonempty_invariant [Op.create sampleRequest (some sampleTablet) 50]

theorem dropOnErrorStep_frame (m : TabletManager) (info : TabletInfo) :
    (dropOnErrorStep m info).shutdown_tablets = m.shutdown_tablets ∧
    (dropOnErrorStep m info).meta_store = m.meta_store ∧
    (dropOnErrorStep m info).dir_registered = m.dir_registered := by
  unfold dropOnErrorStep
  cases m._get_tablet_with_no_lock info.tablet_id info.schema_hash with
  | none => exact ⟨rfl, rfl, rfl⟩
  | some d => exact ⟨rfl, rfl, rfl⟩

theorem get_dropOnErrorStep_self (m : TabletManager) (info : TabletInfo) :
    (dropOnErrorStep m info)._get_tablet_with_no_lock info.tablet_id info.schema_hash
      = none := by
  unfold dropOnErrorStep
  cases hget : m._get_tablet_with_no_lock info.tablet_id info.schema_hash with
  | none => exact hget
  | some d =>
    rw [get_eq_find_bucket]
    exact mapGetArr_removeFromBucket_self_find m.tablet_map info.tablet_id info.schema_hash

theorem get_dropOnErrorStep_other (m : TabletManager) (info : TabletInfo)
    {tablet_id schema_hash : Int}
    (h : ¬(tablet_id = info.tablet_id ∧ schema_hash = info.schema_hash)) :
    (dropOnErrorStep m info)._get_tablet_with_no_lock tablet_id schema_hash
      = m._get_tablet_with_no_lock tablet_id schema_hash := by
  unfold dropOnErrorStep
  cases hget : m._get_tablet_with_no_lock info.tablet_id info.schema_hash with
  | none => rfl
  | some d =>
    rw [get_eq_find_bucket, get_eq_find_bucket]
    exact mapGetArr_removeFromBucket_pair m.tablet_map h

theorem get_none_dropOnErrorStep (m : TabletManager) (info : TabletInfo)
    {tablet_id schema_hash : Int}
    (h : m._get_tablet_with_no_lock tablet_id schema_hash = none) :
    (dropOnErrorStep m info)._get_tablet_with_no_lock tablet_id schema_hash = none := by
  by_cases hp : tablet_id = info.tablet_id ∧ schema_hash = info.schema_hash
  · rw [hp.1, hp.2]
    exact get_dropOnErrorStep_self m info
  · rw [get_dropOnErrorStep_other m info hp]
    exact h

theorem run_dropOnError_frame (tablet_info_vec : List TabletInfo) :
    ∀ m : TabletManager,
      (tablet_info_vec.foldl dropOnErrorStep m).shutdown_tablets = m.shutdown_tablets ∧
      (tablet_info_vec.foldl dropOnErrorStep m).meta_store = m.meta_store ∧
      (tablet_info_vec.foldl dropOnErrorStep m).dir_registered = m.dir_registered := by
  induction tablet_info_vec with
  | nil => intro m; exact ⟨rfl, rfl, rfl⟩
  | cons info rest ih =>
    intro m
    have h1 := dropOnErrorStep_frame m info
    have h2 := ih (dropOnErrorStep m info)
    exact ⟨h2.1.trans h1.1, h2.2.1.trans h1.2.1, h2.2.2.trans h1.2.2⟩

theorem run_dropOnError_get_none (tablet_info_vec : List TabletInfo) :
    ∀ (m : TabletManager) (tablet_id schema_hash : Int),
      m._get_tablet_with_no_lock tablet_id schema_hash = none →
      (tablet_info_vec.foldl dropOnErrorStep m)._get_tablet_with_no_lock tablet_id schema_hash
        = none := by
  induction tablet_info_vec with
  | nil => intro m _ _ h; exact h
  | cons info rest ih =>
    intro m tablet_id schema_hash h
    exact ih (dropOnErrorStep m info) tablet_id schema_hash
      (get_none_dropOnErrorStep m info h)

theorem run_dropOnError_get_other (tablet_info_vec : List TabletInfo) :
    ∀ (m : TabletManager) (tablet_id schema_hash : Int),
      (∀ info ∈ tablet_info_vec,
        ¬(info.tablet_id = tablet_id ∧ info.schema_hash = schema_hash)) →
      (tablet_info_vec.foldl dropOnErrorStep m)._get_tablet_with_no_lock tablet_id schema_hash
        = m._get_tablet_with_no_lock tablet_id schema_hash := by
  induction tablet_info_vec with
  | nil => intro m _ _ _; rfl
  | cons info rest ih =>
    intro m tablet_id schema_hash h
    have hstep : (dropOnErrorStep m info)._get_tablet_with_no_lock tablet_id schema_hash
        = m._get_tablet_with_no_lock tablet_id schema_hash := by
      apply get_dropOnErrorStep_other
      intro hc
      exact h info (List.mem_cons_self _ _) ⟨hc.1.symm, hc.2.symm⟩
    rw [List.foldl_cons, ih (dropOnErrorStep m info) tablet_id schema_hash
      (fun i hi => h i (List.mem_cons_of_mem _ hi)), hstep]

theorem run_dropOnError_listed (tablet_info_vec : List TabletInfo) :
    ∀ m : TabletManager, ∀ info ∈ tablet_info_vec,
      (tablet_info_vec.foldl dropOnErrorStep m)._get_tablet_with_no_lock
        info.tablet_id info.schema_hash = none := by
  induction tablet_info_vec with
  | nil => intro m info hin; simp at hin
  | cons i rest ih =>
    intro m info hin
    rcases List.mem_cons.mp hin with rfl | htail
    · exact run_dropOnError_get_none rest (dropOnErrorStep m info) _ _
        (get_dropOnErrorStep_self m info)
    · exact ih (dropOnErrorStep m i) info htail

/-- C9: the error-path batch drop removes exactly the listed
(tablet_id, schema_hash) instances from the registry (erasing emptied
buckets) and returns success, while the shutdown queue, the durable meta
store and the DataDir registration set are untouched and every
non-listed instance is preserved. -/
theorem drop_tablets_on_error_root_path_spec (m : TabletManager)
    (tablet_info_vec : List TabletInfo) :
    (m.drop_tablets_on_error_root_path tablet_info_vec).1 = OLAP_SUCCESS ∧
    (m.drop_tablets_on_error_root_path tablet_info_vec).2.shutdown_tablets
      = m.shutdown_tablets ∧
    (m.drop_tablets_on_error_root_path tablet_info_vec).2.meta_store = m.meta_store ∧
    (m.drop_tablets_on_error_root_path tablet_info_vec).2.dir_registered
      = m.dir_registered ∧
    (∀ info ∈ tablet_info_vec,
      (m.drop_tablets_on_error_root_path tablet_info_vec).2._get_tablet_with_no_lock
        info.tablet_id info.schema_hash = none) ∧
    (∀ tablet_id schema_hash : Int,
      (∀ info ∈ tablet_info_vec,
        ¬(info.tablet_id = tablet_id ∧ info.schema_hash = schema_hash)) →
      (m.drop_tablets_on_error_root_path tablet_info_vec).2._get_tablet_with_no_lock
          tablet_id schema_hash
        = m._get_tablet_with_no_lock tablet_id schema_hash) := by
  have hframe := run_dropOnError_frame tablet_info_vec m
  exact ⟨rfl, hframe.1, hframe.2.1, hframe.2.2,
    fun info hin => run_dropOnError_listed tablet_info_vec m info hin,
    fun tablet_id schema_hash h =>
      run_dropOnError_get_other tablet_info_vec m tablet_id schema_hash h⟩

/-- Witness for C9: dropping (1, 10) from the registry holding the
(1, 10) and (1, 20) instances removes the first and keeps the second. -/
theorem drop_tablets_on_error_root_path_spec_witness :
    (alterPairManager.drop_tablets_on_error_root_path [⟨1, 10⟩]).1 = OLAP_SUCCESS ∧
    (alterPairManager.drop_tablets_on_error_root_path [⟨1, 10⟩]).2._get_tablet_with_no_lock
      1 10 = none ∧
    (alterPairManager.drop_tablets_on_error_root_path [⟨1, 10⟩]).2._get_tablet_with_no_lock
      1 20 = alterPairManager._get_tablet_with_no_lock 1 20 :=
  ⟨(drop_tablets_on_error_root_path_spec alterPairManager [⟨1, 10⟩]).1,
   (drop_tablets_on_error_root_path_spec alterPairManager [⟨1, 10⟩]).2.2.2.2.1
     ⟨1, 10⟩ (List.mem_singleton.mpr rfl),
   (drop_tablets_on_error_root_path_spec alterPairManager [⟨1, 10⟩]).2.2.2.2.2
     1 20 (by intro info hin; rcases List.mem_singleton.mp hin with rfl; simp)⟩

theorem compactionStep_skip (m : TabletManager) (compaction_type : CompactionType)
    {a : Tablet} (acc : Nat × Option Tablet) (hskip : skipForCompaction m a = true) :
    compactionStep m compaction_type acc a = acc := by
  unfold compactionStep
  rw [if_pos hskip]

theorem compactionStep_noskip (m : TabletManager) (compaction_type : CompactionType)
    {a : Tablet} (acc : Nat × Option Tablet) (hskip : skipForCompaction m a = false) :
    compactionStep m compaction_type acc a =
      if tabletScore compaction_type a > acc.1
        then (tabletScore compaction_type a, some a) else acc := by
  unfold compactionStep
  rw [hskip]
  simp

theorem foldl_compaction_filter (m : TabletManager) (compaction_type : CompactionType) :
    ∀ (l : List Tablet) (acc : Nat × Option Tablet),
      l.foldl (compactionStep m compaction_type) acc =
        (l.filter (fun t => !skipForCompaction m t)).foldl
          (fun acc t => if tabletScore compaction_type t > acc.1
            then (tabletScore compaction_type t, some t) else acc) acc := by
  intro l
  induction l with
  | nil => intro acc; rfl
  | cons a l ih =>
    intro acc
    by_cases hskip : skipForCompaction m a
    · rw [List.foldl_cons, List.filter_cons_of_neg (by simpa using hskip),
        compactionStep_skip m compaction_type acc hskip, ih]
    · have hs : skipForCompaction m a = false := by simpa using hskip
      rw [List.foldl_cons, List.filter_cons_of_pos (by simp [hs]),
        compactionStep_noskip m compaction_type acc hs, ih, List.foldl_cons]

theorem le_foldl_max (compaction_type : CompactionType) :
    ∀ (l : List Tablet) (hi : Nat),
      hi ≤ l.foldl (fun a t => max a (tabletScore compaction_type t)) hi := by
  intro l
  induction l with
  | nil => intro hi; exact Nat.le_refl hi
  | cons a l ih =>
    intro hi
    rw [List.foldl_cons]
    exact Nat.le_trans (Nat.le_max_left _ _) (ih _)

theorem foldl_pure_select (compaction_type : CompactionType) :
    ∀ (l : List Tablet) (hi : Nat) (best : Option Tablet),
      (l.foldl (fun acc t => if tabletScore compaction_type t > acc.1
          then (tabletScore compaction_type t, some t) else acc) (hi, best)).2 =
        if l.foldl (fun a t => max a (tabletScore compaction_type t)) hi > hi then
          l.find? (fun t => tabletScore compaction_type t ==
            l.foldl (fun a t => max a (tabletScore compaction_type t)) hi)
        else best := by
  intro l
  induction l with
  | nil =>
    intro hi best
    simp
  | cons a l ih =>
    intro hi best
    rw [List.foldl_cons, List.foldl_cons]
    by_cases hgt : tabletScore compaction_type a > hi
    · rw [if_pos hgt]
      have hmaxeq : max hi (tabletScore compaction_type a) = tabletScore compaction_type a := by
        omega
      rw [hmaxeq, ih]
      have hM := le_foldl_max compaction_type l (tabletScore compaction_type a)
      set M := l.foldl (fun a t => max a (tabletScore compaction_type t))
        (tabletScore compaction_type a) with hMdef
      by_cases hM2 : M > tabletScore compaction_type a
      · rw [if_pos hM2, if_pos (by omega)]
        rw [List.find?_cons_of_neg _ (by simp; omega)]
      · have hMe : M = tabletScore compaction_type a := by omega
        rw [if_neg hM2, if_pos (by omega)]
        rw [List.find?_cons_of_pos _ (by simp [hMe])]
    · rw [if_neg hgt]
      have hmaxeq : max hi (tabletScore compaction_type a) = hi := by omega
      rw [hmaxeq, ih]
      set M := l.foldl (fun a t => max a (tabletScore compaction_type t)) hi with hMdef
      by_cases hM2 : M > hi
      · rw [if_pos hM2, if_pos hM2]
        rw [List.find?_cons_of_neg _ (by simp; omega)]
      · rw [if_neg hM2, if_neg hM2]

/-- Amended C8: find_best_tablet_to_compaction returns the first-visited
eligible instance attaining the maximum score provided that maximum is
positive, and none when the registry is empty, every instance is
filtered, or every eligible instance scores 0 (the running best starts
at 0 and only strictly larger scores are taken). -/
theorem find_best_tablet_spec (m : TabletManager) (compaction_type : CompactionType) :
    m.find_best_tablet_to_compaction compaction_type =
      if maxCandidateScore m compaction_type = 0 then none
      else (compactionCandidates m).find?
        (fun t => tabletScore compaction_type t == maxCandidateScore m compaction_type) := by
  unfold TabletManager.find_best_tablet_to_compaction
  rw [foldl_compaction_filter, foldl_pure_select]
  unfold maxCandidateScore compactionCandidates
  by_cases hz : (m.allTablets.filter (fun t => !skipForCompaction m t)).foldl
      (fun a t => max a (tabletScore compaction_type t)) 0 = 0
  · rw [if_pos hz, if_neg (by omega)]
  · rw [if_pos (by omega), if_neg hz]

/-- Counterexample to C8 as stated: a registry with a single eligible
instance whose score is 0 is neither empty nor fully filtered, yet
find_best_tablet_to_compaction returns none instead of that instance. -/
theorem find_best_zero_score_counterexample :
    compactionCandidates singletonManager ≠ [] ∧
    (∀ t ∈ compactionCandidates singletonManager,
      tabletScore CompactionType.BASE_COMPACTION t = 0) ∧
    singletonManager.find_best_tablet_to_compaction CompactionType.BASE_COMPACTION
      = none := by
  refine ⟨by decide, ?_, by decide⟩
  decide

theorem updateTabletInMap_cons (a : Int × TableInstances) (l : List (Int × TableInstances))
    (tablet_id schema_hash : Int) (t' : Tablet) :
    updateTabletInMap (a :: l) tablet_id schema_hash t' =
      (if a.1 == tablet_id then
        (a.1, ⟨a.2.table_arr.map (fun t => if t.equal tablet_id schema_hash then t' else t)⟩)
      else a) :: updateTabletInMap l tablet_id schema_hash t' := by
  simp only [updateTabletInMap, List.map_cons]

theorem mapFind_updateTabletInMap_ne {l : List (Int × TableInstances)}
    {tablet_id schema_hash : Int} {t' : Tablet} {id' : Int} (h : id' ≠ tablet_id) :
    mapFind (updateTabletInMap l tablet_id schema_hash t') id' = mapFind l id' := by
  induction l with
  | nil => rfl
  | cons a l ih =>
    rw [updateTabletInMap_cons, mapFind_cons (a := a)]
    by_cases ha : (a.1 == tablet_id)
    · have haeq : a.1 = tablet_id := by simpa using ha
      have hne : (a.1 == id') = false := by
        simp [haeq]
        exact fun hc => h hc.symm
      rw [if_pos ha, mapFind_cons]
      simp only [hne, Bool.false_eq_true, if_false]
      exact ih
    · rw [if_neg (by simp [ha]), mapFind_cons]
      by_cases hb : (a.1 == id')
      · simp [hb]
      · simp only [hb, Bool.false_eq_true, if_false]
        exact ih

theorem mapFind_updateTabletInMap_self {l : List (Int × TableInstances)}
    {tablet_id schema_hash : Int} {t' : Tablet} :
    mapFind (updateTabletInMap l tablet_id schema_hash t') tablet_id =
      (mapFind l tablet_id).map (fun ins =>
        ⟨ins.table_arr.map (fun t => if t.equal tablet_id schema_hash then t' else t)⟩) := by
  induction l with
  | nil => rfl
  | cons a l ih =>
    rw [updateTabletInMap_cons, mapFind_cons (a := a)]
    by_cases ha : (a.1 == tablet_id)
    · rw [if_pos ha, mapFind_cons]
      simp [ha]
    · rw [if_neg (by simp [ha]), mapFind_cons]
      simp only [ha, Bool.false_eq_true, if_false]
      exact ih

theorem find_map_ite {α : Type} (p : α → Bool) (r : α) (hr : p r = true) (l : List α) :
    (l.map (fun x => if p x then r else x)).find? p = (l.find? p).map (fun _ => r) := by
  induction l with
  | nil => rfl
  | cons a l ih =>
    rw [List.map_cons]
    by_cases hp : p a
    · rw [if_pos hp, List.find?_cons_of_pos _ hr, List.find?_cons_of_pos _ hp]
      rfl
    · have hp' : p a = false := by simpa using hp
      rw [if_neg (by simp [hp']), List.find?_cons_of_neg _ (by simp [hp']),
        List.find?_cons_of_neg _ (by simp [hp'])]
      exact ih

theorem find_isSome_map_pointwise {α : Type} (p : α → Bool) (f : α → α) (l : List α)
    (h : ∀ x, p (f x) = p x) :
    ((l.map f).find? p).isSome = (l.find? p).isSome := by
  induction l with
  | nil => rfl
  | cons a l ih =>
    rw [List.map_cons]
    by_cases hp : p a
    · rw [List.find?_cons_of_pos _ (by rw [h a]; exact hp), List.find?_cons_of_pos _ hp]
      rfl
    · have hp' : p a = false := by simpa using hp
      rw [List.find?_cons_of_neg _ (by simp [h a, hp']), List.find?_cons_of_neg _ (by simp [hp'])]
      exact ih

theorem pointwise_equal_update (rel' : Tablet) (rid rhash tablet_id schema_hash : Int)
    (h1 : rel'.tablet_id = rid) (h2 : rel'.schema_hash = rhash) (x : Tablet) :
    Tablet.equal (if x.equal rid rhash then rel' else x) tablet_id schema_hash
      = x.equal tablet_id schema_hash := by
  by_cases hx : x.equal rid rhash
  · rw [if_pos hx]
    have hx' : x.tablet_id = rid ∧ x.schema_hash = rhash := by
      simpa [Tablet.equal] using hx
    simp [Tablet.equal, h1, h2, hx'.1, hx'.2]
  · rw [if_neg hx]

theorem metaFind_metaSave_self (store : List ((Nat × Int × Int) × Tablet)) (t : Tablet) :
    metaFind (metaSave store t) t.data_dir t.tablet_id t.schema_hash = some t := by
  unfold metaFind metaSave
  rw [List.find?_cons_of_pos _ (by simp)]
  rfl

theorem metaFind_metaSave_ne (store : List ((Nat × Int × Int) × Tablet)) (t : Tablet)
    (dir : Nat) (tablet_id schema_hash : Int)
    (hne : ((t.data_dir, t.tablet_id, t.schema_hash) : Nat × Int × Int)
      ≠ (dir, tablet_id, schema_hash)) :
    metaFind (metaSave store t) dir tablet_id schema_hash
      = metaFind store dir tablet_id schema_hash := by
  unfold metaFind metaSave
  rw [List.find?_cons_of_neg _ (by simp [hne])]
  congr 1
  apply find_filter_of_imp
  intro e he
  have h1 : e.1 = (dir, tablet_id, schema_hash) := by simpa using he
  rw [h1, bne_iff_ne]
  exact fun hc => hne hc.symm

theorem metaFind_shutdownRemoved_ne :
    ∀ (removed : List Tablet) (acc : List Tablet)
      (store : List ((Nat × Int × Int) × Tablet)) (dir : Nat) (tablet_id schema_hash : Int),
      (∀ t ∈ removed, ((t.data_dir, t.tablet_id, t.schema_hash) : Nat × Int × Int)
        ≠ (dir, tablet_id, schema_hash)) →
      metaFind (removed.foldl
        (fun acc t =>
          let t' := { t with tablet_state := TabletState.TABLET_SHUTDOWN }
          (acc.1 ++ [t'], metaSave acc.2 t')) (acc, store)).2 dir tablet_id schema_hash
        = metaFind store dir tablet_id schema_hash := by
  intro removed
  induction removed with
  | nil => intro acc store dir tablet_id schema_hash _; rfl
  | cons t rest ih =>
    intro acc store dir tablet_id schema_hash h
    rw [List.foldl_cons]
    rw [ih _ _ dir tablet_id schema_hash (fun x hx => h x (List.mem_cons_of_mem _ hx))]
    exact metaFind_metaSave_ne store _ dir tablet_id schema_hash
      (h t (List.mem_cons_self _ _))

theorem drop_directly_fst {m : TabletManager} (tablet_id schema_hash : Int)
    (keep_files : Bool)
    (hget : (m._get_tablet_with_no_lock tablet_id schema_hash).isSome) :
    (m._drop_tablet_directly_unlocked tablet_id schema_hash keep_files).1
      = OLAP_SUCCESS := by
  unfold TabletManager._drop_tablet_directly_unlocked
  cases hg : m._get_tablet_with_no_lock tablet_id schema_hash with
  | none => rw [hg] at hget; simp at hget
  | some d => rfl

theorem drop_directly_get_self (m : TabletManager) (tablet_id schema_hash : Int)
    (keep_files : Bool) :
    (m._drop_tablet_directly_unlocked tablet_id schema_hash
      keep_files).2._get_tablet_with_no_lock tablet_id schema_hash = none := by
  unfold TabletManager._drop_tablet_directly_unlocked
  cases hg : m._get_tablet_with_no_lock tablet_id schema_hash with
  | none => exact hg
  | some d =>
    rw [get_eq_find_bucket]
    exact mapGetArr_removeFromBucket_self_find m.tablet_map tablet_id schema_hash

theorem drop_directly_get_pair (m : TabletManager) (tablet_id schema_hash : Int)
    (keep_files : Bool) {id' hash' : Int} (h : ¬(id' = tablet_id ∧ hash' = schema_hash)) :
    (m._drop_tablet_directly_unlocked tablet_id schema_hash
      keep_files).2._get_tablet_with_no_lock id' hash'
      = m._get_tablet_with_no_lock id' hash' := by
  unfold TabletManager._drop_tablet_directly_unlocked
  cases hg : m._get_tablet_with_no_lock tablet_id schema_hash with
  | none => rfl
  | some d =>
    rw [get_eq_find_bucket, get_eq_find_bucket]
    exact mapGetArr_removeFromBucket_pair m.tablet_map h

theorem drop_directly_meta_pair (m : TabletManager) (tablet_id schema_hash : Int)
    (keep_files : Bool) (dir : Nat) (i h : Int) (hne : ¬(i = tablet_id ∧ h = schema_hash)) :
    metaFind (m._drop_tablet_directly_unlocked tablet_id schema_hash
      keep_files).2.meta_store dir i h = metaFind m.meta_store dir i h := by
  unfold TabletManager._drop_tablet_directly_unlocked
  cases hg : m._get_tablet_with_no_lock tablet_id schema_hash with
  | none => rfl
  | some d =>
    dsimp only
    by_cases hk : keep_files
    · rw [if_pos hk]
    · rw [if_neg hk]
      unfold shutdownRemoved
      apply metaFind_shutdownRemoved_ne
      intro t ht hc
      have hmem := List.of_mem_filter ht
      have hti : t.tablet_id = tablet_id ∧ t.schema_hash = schema_hash := by
        simpa [Tablet.equal] using hmem
      simp only [Prod.mk.injEq] at hc
      exact hne ⟨hc.2.1 ▸ hti.1.symm ▸ rfl, hc.2.2 ▸ hti.2.symm ▸ rfl⟩

theorem find_bucket_update_isSome (l : List (Int × TableInstances))
    (tablet_id schema_hash rid rhash : Int) (rel' : Tablet)
    (h1 : rel'.tablet_id = rid) (h2 : rel'.schema_hash = rhash) :
    ((mapGetArr (updateTabletInMap l rid rhash rel') tablet_id).find?
        (fun t => t.equal tablet_id schema_hash)).isSome
      = ((mapGetArr l tablet_id).find? (fun t => t.equal tablet_id schema_hash)).isSome := by
  by_cases hid : tablet_id = rid
  · subst hid
    unfold mapGetArr
    rw [mapFind_updateTabletInMap_self]
    cases hmf : mapFind l tablet_id with
    | none => rfl
    | some ins =>
      dsimp only [Option.map_some']
      exact find_isSome_map_pointwise _ _ _
        (pointwise_equal_update rel' tablet_id rhash tablet_id schema_hash h1 h2)
  · unfold mapGetArr
    rw [mapFind_updateTabletInMap_ne hid]

theorem find_bucket_update_self (l : List (Int × TableInstances)) (rid rhash : Int)
    (rel' : Tablet) (h1 : rel'.equal rid rhash = true) :
    (mapGetArr (updateTabletInMap l rid rhash rel') rid).find? (fun t => t.equal rid rhash)
      = ((mapGetArr l rid).find? (fun t => t.equal rid rhash)).map (fun _ => rel') := by
  unfold mapGetArr
  rw [mapFind_updateTabletInMap_self]
  cases hmf : mapFind l rid with
  | none => rfl
  | some ins =>
    dsimp only [Option.map_some']
    exact find_map_ite _ rel' h1 ins.table_arr

theorem drop_unlock_alter_eq (m : TabletManager) (tablet_id schema_hash : Int)
    (keep_files : Bool) (d : Tablet) (task : AlterTask) (rel : Tablet)
    (hget : m._get_tablet_with_no_lock tablet_id schema_hash = some d)
    (halter : d.alter_task = some task)
    (hrel : m._get_tablet_with_no_lock task.related_tablet_id task.related_schema_hash
      = some rel)
    (hnb : ¬(d.creation_time < rel.creation_time ∧
      task.alter_state ≠ AlterState.ALTER_FINISHED)) :
    m._drop_tablet_unlock tablet_id schema_hash keep_files =
      ({ m with
          tablet_map := updateTabletInMap m.tablet_map task.related_tablet_id
            task.related_schema_hash { rel with alter_task := none },
          meta_store := metaSave m.meta_store { rel with alter_task := none }
        } : TabletManager)._drop_tablet_directly_unlocked tablet_id schema_hash
        keep_files := by
  unfold TabletManager._drop_tablet_unlock
  rw [hget]
  dsimp only
  rw [halter]
  dsimp only
  rw [hrel]
  dsimp only
  have hcond : (decide (d.creation_time < rel.creation_time)
      && !(task.alter_state == AlterState.ALTER_FINISHED)) = false := by
    by_cases h1 : d.creation_time < rel.creation_time
    · have h2 : task.alter_state = AlterState.ALTER_FINISHED := by
        by_contra hne2
        exact hnb ⟨h1, hne2⟩
      simp [h2]
    · simp [h1]
  rw [if_neg (by rw [hcond]; simp)]

theorem drop_unlock_ok (m : TabletManager) (tablet_id schema_hash : Int) (keep_files : Bool)
    (d : Tablet) (hget : m._get_tablet_with_no_lock tablet_id schema_hash = some d)
    (hok : OldDropOk m d) :
    (m._drop_tablet_unlock tablet_id schema_hash keep_files).1 = OLAP_SUCCESS ∧
    (m._drop_tablet_unlock tablet_id schema_hash keep_files).2._get_tablet_with_no_lock
      tablet_id schema_hash = none := by
  cases halter : d.alter_task with
  | none =>
    have heq : m._drop_tablet_unlock tablet_id schema_hash keep_files
        = m._drop_tablet_directly_unlocked tablet_id schema_hash keep_files := by
      unfold TabletManager._drop_tablet_unlock
      rw [hget]
      dsimp only
      rw [halter]
    rw [heq]
    exact ⟨drop_directly_fst tablet_id schema_hash keep_files (by rw [hget]; rfl),
      drop_directly_get_self m tablet_id schema_hash keep_files⟩
  | some task =>
    cases hrel : m._get_tablet_with_no_lock task.related_tablet_id
        task.related_schema_hash with
    | none =>
      have heq : m._drop_tablet_unlock tablet_id schema_hash keep_files
          = m._drop_tablet_directly_unlocked tablet_id schema_hash keep_files := by
        unfold TabletManager._drop_tablet_unlock
        rw [hget]
        dsimp only
        rw [halter]
        dsimp only
        rw [hrel]
      rw [heq]
      exact ⟨drop_directly_fst tablet_id schema_hash keep_files (by rw [hget]; rfl),
        drop_directly_get_self m tablet_id schema_hash keep_files⟩
    | some rel =>
      have hnb : ¬(d.creation_time < rel.creation_time ∧
          task.alter_state ≠ AlterState.ALTER_FINISHED) := by
        rintro ⟨h1, h2⟩
        exact hok task halter h2 rel hrel h1
      rw [drop_unlock_alter_eq m tablet_id schema_hash keep_files d task rel hget halter
        hrel hnb]
      have hrelids : rel.tablet_id = task.related_tablet_id ∧
          rel.schema_hash = task.related_schema_hash := by
        rw [get_eq_find_bucket] at hrel
        have := List.find?_some hrel
        simpa [Tablet.equal] using this
      have hisSome : ((({ m with
          tablet_map := updateTabletInMap m.tablet_map task.related_tablet_id
            task.related_schema_hash { rel with alter_task := none },
          meta_store := metaSave m.meta_store { rel with alter_task := none }
        } : TabletManager))._get_tablet_with_no_lock tablet_id schema_hash).isSome := by
        rw [get_eq_find_bucket]
        have := find_bucket_update_isSome m.tablet_map tablet_id schema_hash
          task.related_tablet_id task.related_schema_hash { rel with alter_task := none }
          hrelids.1 hrelids.2
        rw [show (mapGetArr (({ m with
            tablet_map := updateTabletInMap m.tablet_map task.related_tablet_id
              task.related_schema_hash { rel with alter_task := none },
            meta_store := metaSave m.meta_store { rel with alter_task := none }
          } : TabletManager)).tablet_map tablet_id)
          = mapGetArr (updateTabletInMap m.tablet_map task.related_tablet_id
              task.related_schema_hash { rel with alter_task := none }) tablet_id from rfl]
        rw [this, ← get_eq_find_bucket, hget]
        rfl
      exact ⟨drop_directly_fst tablet_id schema_hash keep_files hisSome,
        drop_directly_get_self _ tablet_id schema_hash keep_files⟩

theorem get_update_state_isSome (m : TabletManager) (tablet_id schema_hash rid rhash : Int)
    (rel' : Tablet) (h1 : rel'.tablet_id = rid) (h2 : rel'.schema_hash = rhash)
    (hg : (m._get_tablet_with_no_lock tablet_id schema_hash).isSome) :
    ((({ m with
        tablet_map := updateTabletInMap m.tablet_map rid rhash rel',
        meta_store := metaSave m.meta_store rel' } : TabletManager))._get_tablet_with_no_lock
        tablet_id schema_hash).isSome := by
  rw [get_eq_find_bucket]
  have heq := find_bucket_update_isSome m.tablet_map tablet_id schema_hash rid rhash rel' h1 h2
  rw [show (mapGetArr (({ m with
      tablet_map := updateTabletInMap m.tablet_map rid rhash rel',
      meta_store := metaSave m.meta_store rel' } : TabletManager)).tablet_map tablet_id)
    = mapGetArr (updateTabletInMap m.tablet_map rid rhash rel') tablet_id from rfl]
  rw [heq, ← get_eq_find_bucket]
  exact hg

/-- C4: drop_tablet is idempotent on an absent target; refuses to drop
the base of an unfinished schema change whose related tablet is
registered (PREVIOUS_SCHEMA_CHANGE_NOT_FINISHED, registry unchanged);
otherwise, with an alter task whose registered related tablet is a
different instance, it clears the related tablet's alter task, saves its
meta and drops the target directly, and with the related tablet absent
it drops the target directly. -/
theorem drop_tablet_schema_change_spec (m : TabletManager) (tablet_id schema_hash : Int)
    (keep_files : Bool) :
    (m._get_tablet_with_no_lock tablet_id schema_hash = none →
      m.drop_tablet tablet_id schema_hash keep_files = (OLAP_SUCCESS, m)) ∧
    (∀ d task rel, m._get_tablet_with_no_lock tablet_id schema_hash = some d →
      d.alter_task = some task →
      task.alter_state ≠ AlterState.ALTER_FINISHED →
      m._get_tablet_with_no_lock task.related_tablet_id task.related_schema_hash
        = some rel →
      d.creation_time < rel.creation_time →
      m.drop_tablet tablet_id schema_hash keep_files
        = (ERR_PREVIOUS_SCHEMA_CHANGE_NOT_FINISHED, m)) ∧
    (∀ d task, m._get_tablet_with_no_lock tablet_id schema_hash = some d →
      d.alter_task = some task →
      m._get_tablet_with_no_lock task.related_tablet_id task.related_schema_hash = none →
      m.drop_tablet tablet_id schema_hash keep_files
        = m._drop_tablet_directly_unlocked tablet_id schema_hash keep_files) ∧
    (∀ d task rel, m._get_tablet_with_no_lock tablet_id schema_hash = some d →
      d.alter_task = some task →
      m._get_tablet_with_no_lock task.related_tablet_id task.related_schema_hash
        = some rel →
      ¬(d.creation_time < rel.creation_time ∧
        task.alter_state ≠ AlterState.ALTER_FINISHED) →
      ¬(task.related_tablet_id = tablet_id ∧ task.related_schema_hash = schema_hash) →
      (m.drop_tablet tablet_id schema_hash keep_files).1 = OLAP_SUCCESS ∧
      (m.drop_tablet tablet_id schema_hash keep_files).2._get_tablet_with_no_lock
        tablet_id schema_hash = none ∧
      (m.drop_tablet tablet_id schema_hash keep_files).2._get_tablet_with_no_lock
        task.related_tablet_id task.related_schema_hash
        = some { rel with alter_task := none } ∧
      metaFind (m.drop_tablet tablet_id schema_hash keep_files).2.meta_store
        rel.data_dir task.related_tablet_id task.related_schema_hash
        = some { rel with alter_task := none }) := by
  refine ⟨?_, ?_, ?_, ?_⟩
  · intro hget
    unfold TabletManager.drop_tablet TabletManager._drop_tablet_unlock
    rw [hget]
  · intro d task rel hget halter hstate hrel hlt
    unfold TabletManager.drop_tablet TabletManager._drop_tablet_unlock
    rw [hget]
    dsimp only
    rw [halter]
    dsimp only
    rw [hrel]
    dsimp only
    rw [if_pos (by simp [hlt, hstate])]
  · intro d task hget halter hrel
    unfold TabletManager.drop_tablet TabletManager._drop_tablet_unlock
    rw [hget]
    dsimp only
    rw [halter]
    dsimp only
    rw [hrel]
  · intro d task rel hget halter hrel hnb hne
    have hrelids : rel.tablet_id = task.related_tablet_id ∧
        rel.schema_hash = task.related_schema_hash := by
      rw [get_eq_find_bucket] at hrel
      have := List.find?_some hrel
      simpa [Tablet.equal] using this
    have heq := drop_unlock_alter_eq m tablet_id schema_hash keep_files d task rel hget
      halter hrel hnb
    unfold TabletManager.drop_tablet
    rw [heq]
    set rel' : Tablet := { rel with alter_task := none } with hreldef
    set m2 : TabletManager := { m with
      tablet_map := updateTabletInMap m.tablet_map task.related_tablet_id
        task.related_schema_hash rel',
      meta_store := metaSave m.meta_store rel' } with hm2def
    have hisSome := get_update_state_isSome m tablet_id schema_hash
      task.related_tablet_id task.related_schema_hash rel' hrelids.1 hrelids.2
      (by rw [hget]; rfl)
    refine ⟨drop_directly_fst tablet_id schema_hash keep_files hisSome,
      drop_directly_get_self m2 tablet_id schema_hash keep_files, ?_, ?_⟩
    · rw [drop_directly_get_pair m2 tablet_id schema_hash keep_files hne]
      rw [get_eq_find_bucket]
      rw [show mapGetArr m2.tablet_map task.related_tablet_id
        = mapGetArr (updateTabletInMap m.tablet_map task.related_tablet_id
            task.related_schema_hash rel') task.related_tablet_id from rfl]
      rw [find_bucket_update_self m.tablet_map task.related_tablet_id
        task.related_schema_hash rel' (by simp [Tablet.equal, hrelids.1, hrelids.2])]
      rw [← get_eq_find_bucket, hrel]
      rfl
    · rw [drop_directly_meta_pair m2 tablet_id schema_hash keep_files rel.data_dir
        task.related_tablet_id task.related_schema_hash hne]
      rw [show m2.meta_store = metaSave m.meta_store rel' from rfl]
      rw [← hrelids.1, ← hrelids.2]
      exact metaFind_metaSave_self m.meta_store rel'

/-- Witness for C4: absent target (idempotent success), base of an
unfinished schema change (refused), and dropping the derived side
(related tablet's alter task cleared, meta saved, target dropped). -/
theorem drop_tablet_schema_change_spec_witness :
    (TabletManager.empty.drop_tablet 5 5 false = (OLAP_SUCCESS, TabletManager.empty)) ∧
    (alterPairManager.drop_tablet 1 10 false
      = (ERR_PREVIOUS_SCHEMA_CHANGE_NOT_FINISHED, alterPairManager)) ∧
    ((derivedPairManager.drop_tablet 1 20 false).1 = OLAP_SUCCESS ∧
      (derivedPairManager.drop_tablet 1 20 false).2._get_tablet_with_no_lock 1 20
        = none ∧
      (derivedPairManager.drop_tablet 1 20 false).2._get_tablet_with_no_lock 1 10
        = some { plainOldTablet with alter_task := none } ∧
      metaFind (derivedPairManager.drop_tablet 1 20 false).2.meta_store
        plainOldTablet.data_dir 1 10 = some { plainOldTablet with alter_task := none }) :=
  ⟨(drop_tablet_schema_change_spec TabletManager.empty 5 5 false).1 (by decide),
   (drop_tablet_schema_change_spec alterPairManager 1 10 false).2.1 oldBaseTablet
     ⟨1, 20, AlterState.ALTER_RUNNING⟩ relatedTablet (by decide) (by decide) (by decide)
     (by decide) (by decide),
   (drop_tablet_schema_change_spec derivedPairManager 1 20 false).2.2.2 derivedAlterTablet
     ⟨1, 10, AlterState.ALTER_RUNNING⟩ plainOldTablet (by decide) (by decide) (by decide)
     (by decide) (by decide)⟩

theorem find_sorted_snoc (kept : List Tablet) (t : Tablet) (tablet_id schema_hash : Int)
    (hkept : ∀ x ∈ kept, x.equal tablet_id schema_hash = false)
    (ht : t.equal tablet_id schema_hash = true) :
    (sortByCreationTime (kept ++ [t])).find? (fun x => x.equal tablet_id schema_hash)
      = some t := by
  rw [find_eq_head_filter]
  have hfil : (kept ++ [t]).filter (fun x => x.equal tablet_id schema_hash) = [t] := by
    rw [List.filter_append]
    rw [List.filter_eq_nil_iff.mpr (by intro x hx; simp [hkept x hx])]
    simp [ht]
  have hperm := (sortByCreationTime_perm (kept ++ [t])).filter
    (fun x => x.equal tablet_id schema_hash)
  rw [hfil] at hperm
  rw [List.perm_singleton.mp hperm]
  rfl

theorem add_to_map_replace (m : TabletManager) (tablet_id schema_hash : Int)
    (tablet old : Tablet) (update_meta keep_files : Bool)
    (hget : m._get_tablet_with_no_lock tablet_id schema_hash = some old)
    (hok : OldDropOk m old)
    (hids : tablet.tablet_id = tablet_id ∧ tablet.schema_hash = schema_hash) :
    (m._add_tablet_to_map tablet_id schema_hash tablet update_meta keep_files true).1
      = OLAP_SUCCESS ∧
    (m._add_tablet_to_map tablet_id schema_hash tablet update_meta keep_files
      true).2._get_tablet_with_no_lock tablet_id schema_hash = some tablet := by
  unfold TabletManager._add_tablet_to_map
  dsimp only
  simp only [eq_self_iff_true, if_true]
  set m1 := if update_meta then { m with meta_store := metaSave m.meta_store tablet } else m
    with hm1
  have hget1 : m1._get_tablet_with_no_lock tablet_id schema_hash = some old := by
    by_cases hu : update_meta
    · rw [hm1, if_pos hu]; exact hget
    · rw [hm1, if_neg hu]; exact hget
  have hok1 : OldDropOk m1 old := by
    by_cases hu : update_meta
    · rw [hm1, if_pos hu]; exact hok
    · rw [hm1, if_neg hu]; exact hok
  have hdrop := drop_unlock_ok m1 tablet_id schema_hash keep_files old hget1 hok1
  set d := m1._drop_tablet_unlock tablet_id schema_hash keep_files with hd
  rw [if_neg (by rw [hdrop.1]; simp)]
  refine ⟨rfl, ?_⟩
  rw [get_eq_find_bucket]
  have hbucket : mapGetArr (mapUpsertArr d.2.tablet_map tablet_id
      (sortByCreationTime (mapGetArr d.2.tablet_map tablet_id ++ [tablet]))) tablet_id
      = sortByCreationTime (mapGetArr d.2.tablet_map tablet_id ++ [tablet]) := by
    unfold mapGetArr
    rw [mapFind_mapUpsertArr_self]
  rw [show mapGetArr ({ d.2 with
      dir_registered := dirRegister d.2.dir_registered tablet,
      tablet_map := mapUpsertArr d.2.tablet_map tablet_id
        (sortByCreationTime (mapGetArr d.2.tablet_map tablet_id ++ [tablet]))
    } : TabletManager).tablet_map tablet_id
    = mapGetArr (mapUpsertArr d.2.tablet_map tablet_id
        (sortByCreationTime (mapGetArr d.2.tablet_map tablet_id ++ [tablet]))) tablet_id
    from rfl]
  rw [hbucket]
  apply find_sorted_snoc
  · intro x hx
    have hnone := hdrop.2
    rw [get_eq_find_bucket, List.find?_eq_none] at hnone
    have := hnone x hx
    simpa using this
  · simp [Tablet.equal, hids.1, hids.2]

/-- Amended C2: with an exact-identity duplicate registered and the
incoming tablet carrying a max rowset, _add_tablet_unlock fails with
ENGINE_INSERT_EXISTS_TABLE on a same-path or same-DataDir duplicate when
not forced; replaces the existing instance by the incoming one when
force or the incoming max version/time wins, provided the existing
instance is not the base of an unfinished schema change with a
registered related tablet (otherwise the drop of the old instance fails
with PREVIOUS_SCHEMA_CHANGE_NOT_FINISHED instead); and in the remaining
cases returns ENGINE_INSERT_EXISTS_TABLE leaving the state unchanged. -/
theorem add_tablet_unlock_duplicate_spec (m : TabletManager) (tablet_id schema_hash : Int)
    (tablet old : Tablet) (new_rowset : Rowset) (update_meta force : Bool)
    (hget : m._get_tablet_with_no_lock tablet_id schema_hash = some old)
    (hids : tablet.tablet_id = tablet_id ∧ tablet.schema_hash = schema_hash)
    (hnr : rowsetWithMaxVersion tablet.rowsets = some new_rowset) :
    (force = false →
      (old.tablet_path = tablet.tablet_path ∨ old.data_dir = tablet.data_dir) →
      m._add_tablet_unlock tablet_id schema_hash tablet update_meta force
        = (ERR_ENGINE_INSERT_EXISTS_TABLE, m)) ∧
    ((force = true ∨
        (old.tablet_path ≠ tablet.tablet_path ∧ old.data_dir ≠ tablet.data_dir)) →
      (force = true ∨ new_rowset.version_second > maxRowsetEndVersion old ∨
        (new_rowset.version_second = maxRowsetEndVersion old ∧
          new_rowset.creation_time > maxRowsetCreationTime old)) →
      OldDropOk m old →
      (m._add_tablet_unlock tablet_id schema_hash tablet update_meta force).1
          = OLAP_SUCCESS ∧
        (m._add_tablet_unlock tablet_id schema_hash tablet update_meta
          force).2._get_tablet_with_no_lock tablet_id schema_hash = some tablet) ∧
    (force = false → old.tablet_path ≠ tablet.tablet_path →
      old.data_dir ≠ tablet.data_dir →
      ¬(new_rowset.version_second > maxRowsetEndVersion old ∨
        (new_rowset.version_second = maxRowsetEndVersion old ∧
          new_rowset.creation_time > maxRowsetCreationTime old)) →
      m._add_tablet_unlock tablet_id schema_hash tablet update_meta force
        = (ERR_ENGINE_INSERT_EXISTS_TABLE, m)) := by
  have hck : containsKey m.tablet_map tablet_id = true := by
    rw [containsKey_eq_isSome_mapFind]
    rw [get_eq_find_bucket] at hget
    cases hmf : mapFind m.tablet_map tablet_id with
    | none =>
      unfold mapGetArr at hget
      rw [hmf] at hget
      simp at hget
    | some ins => rfl
  have hek : ensureKey m.tablet_map tablet_id = m.tablet_map := by
    unfold ensureKey
    rw [hck]
    simp
  have hfind : (mapGetArr m.tablet_map tablet_id).find?
      (fun t => t.equal tablet_id schema_hash) = some old := by
    rw [← get_eq_find_bucket]
    exact hget
  refine ⟨?_, ?_, ?_⟩
  · intro hforce hor
    unfold TabletManager._add_tablet_unlock
    dsimp only
    rw [hek]
    rw [hfind, hforce]
    dsimp only
    by_cases hpq : old.tablet_path = tablet.tablet_path
    · rw [if_pos (by simp [hpq])]
    · rcases hor with hpath | hdir
      · exact absurd hpath hpq
      · rw [if_neg (by simp [hpq]), if_pos (by simp [hdir])]
  · intro hpaths hcond hok
    by_cases hf : force = true
    · unfold TabletManager._add_tablet_unlock
      dsimp only
      rw [hek]
      rw [hfind, hf]
      dsimp only
      rw [if_neg (by simp), if_neg (by simp), hnr]
      dsimp only
      rw [if_pos (by simp)]
      exact add_to_map_replace m tablet_id schema_hash tablet old update_meta true hget
        hok hids
    · have hf' : force = false := by simpa using hf
      rcases hpaths with hft | hpd
      · exact absurd hft hf
      rcases hcond with hft | hv
      · exact absurd hft hf
      unfold TabletManager._add_tablet_unlock
      dsimp only
      rw [hek]
      rw [hfind, hf']
      dsimp only
      rw [if_neg (by simp [hpd.1]), if_neg (by simp [hpd.2]), hnr]
      dsimp only
      rw [if_pos (by
        simp only [Bool.false_or, Bool.or_eq_true, decide_eq_true_eq, Bool.and_eq_true,
          beq_iff_eq]
        exact hv)]
      exact add_to_map_replace m tablet_id schema_hash tablet old update_meta false hget
        hok hids
  · intro hforce hp hd hv
    unfold TabletManager._add_tablet_unlock
    dsimp only
    rw [hek]
    rw [hfind, hforce]
    dsimp only
    rw [if_neg (by simp [hp]), if_neg (by simp [hd]), hnr]
    dsimp only
    rw [if_neg (by
      simp only [Bool.false_or, Bool.or_eq_true, decide_eq_true_eq, Bool.and_eq_true,
        beq_iff_eq]
      exact hv)]

/-- Counterexample to C2 as stated: the existing (1, 10) instance is the
base of an unfinished schema change with registered related tablet
(1, 20); the incoming tablet lives on another path and DataDir and has a
strictly larger max end version (5 > 1), so the claim requires
replacement, but the call returns PREVIOUS_SCHEMA_CHANGE_NOT_FINISHED
and the old instance stays registered. -/
theorem add_tablet_replace_blocked_counterexample :
    alterPairManager._get_tablet_with_no_lock 1 10 = some oldBaseTablet ∧
    (rowsetWithMaxVersion oldBaseTablet.rowsets).map (fun r => r.version_second)
      = some 1 ∧
    (rowsetWithMaxVersion incomingTablet.rowsets).map (fun r => r.version_second)
      = some 5 ∧
    oldBaseTablet.tablet_path ≠ incomingTablet.tablet_path ∧
    oldBaseTablet.data_dir ≠ incomingTablet.data_dir ∧
    (alterPairManager._add_tablet_unlock 1 10 incomingTablet true false).1
      = ERR_PREVIOUS_SCHEMA_CHANGE_NOT_FINISHED ∧
    (alterPairManager._add_tablet_unlock 1 10 incomingTablet true
      false).2._get_tablet_with_no_lock 1 10 = some oldBaseTablet := by
  decide

/-- Witness for the amended C2: replacing the unobstructed (1, 10)
instance with a fresher incoming tablet succeeds and installs it. -/
theorem add_tablet_unlock_duplicate_spec_witness :
    (plainOldManager._add_tablet_unlock 1 10 incomingTablet true false).1
      = OLAP_SUCCESS ∧
    (plainOldManager._add_tablet_unlock 1 10 incomingTablet true
      false).2._get_tablet_with_no_lock 1 10 = some incomingTablet :=
  (add_tablet_unlock_duplicate_spec plainOldManager 1 10 incomingTablet plainOldTablet
    { sampleRowset with version_second := 5, creation_time := 6 } true false
    (by decide) (by decide) (by decide)).2.1
    (Or.inr (by decide))
    (Or.inr (Or.inl (by decide)))
    (by
      intro task ht
      exact absurd (show (none : Option AlterTask) = some task from ht) (by simp))
